import Mathlib

/-!
# vec_add.c : host program of the OpenCL vector-addition sample

A shallow embedding of `src/vec_add.c`, followed by the properties proved of it.

* Machine integers are natural numbers or integers, with an explicit reduction modulo `2 ^ 64`
  for `size_t` arithmetic.  Counters of type `int` never leave their range here (`cnt <= N`).
* A `float` or `double` value is a rational number.  Every arithmetic operation of the source is
  the exact operation followed by the rounding of its result type; the two roundings are the
  fields of `FloatSem`, and `FloatSem.exact` rounds nothing.  Infinities and NaN are not among
  these values.  The validator is therefore embedded a second time, in `Ieee`, over an arbitrary
  carrier of `float` values and arbitrary operations (`FloatOps`), for the property that depends
  on the comparisons being false on NaN; `FloatOps.exact` is exact arithmetic with the
  infinities and NaN.
* A vector (`float *`) is a function from indices to values; a function writing into a vector
  returns the vector it leaves behind.
* A run is a value of `Res`: the events it produced (API calls issued and texts printed, in
  order) together with the way it ended (`ret`: the function returned; `exit`: the process was
  terminated by `exit()`).
* What the environment decides (status codes of API calls, the `malloc` of `alloc_vec`, `fopen`,
  `rand()`, names, the build log, the data read back from the device, the text of `%f`) is read
  from an `Env`.  The allocations whose result the source does not test (name buffers, kernel
  binary, build log) are taken to succeed.
-/

namespace VecAdd

/-! ## Dispatch size (main, lines 187-192) -/

/-- Number of values of `size_t` (64-bit host). -/
def SIZE_MOD : Nat := 2 ^ 64

/-- Largest value of `int`. -/
def INT_MAX : Nat := 2147483647

/-- Addition of two `size_t` values. -/
def size_add (a b : Nat) : Nat := (a + b) % SIZE_MOD

/-- Subtraction of two `size_t` values (wraps below zero). -/
def size_sub (a b : Nat) : Nat := (a % SIZE_MOD + SIZE_MOD - b % SIZE_MOD) % SIZE_MOD

/-- Multiplication of two `size_t` values. -/
def size_mul (a b : Nat) : Nat := (a * b) % SIZE_MOD

/-- Local work size: `lws[1] = {256}`. -/
def LWS : Nat := 256

/-- The loop body of line 191, `gws[i] = (gws[i] + lws[i] - 1) / lws[i] * lws[i]`,
applied to `gws[0] = N` (an `int` converted to `size_t`) and `lws[0]`. -/
def dispatch_gws (N lws : Nat) : Nat :=
  size_mul (size_sub (size_add (N % SIZE_MOD) lws) 1 / lws) lws

/-! ## Floating point -/

/-- Roundings of the two floating-point formats of the source. -/
structure FloatSem where
  /-- rounding to `float` -/
  f32 : ℚ → ℚ
  /-- rounding to `double` -/
  f64 : ℚ → ℚ

/-- Exact arithmetic: no rounding. -/
def FloatSem.exact : FloatSem := ⟨fun x => x, fun x => x⟩

/-- What the proofs need of a rounding: it is monotone and leaves `-1/2`, `0`, `1/2`
and `1` (all representable) unchanged. -/
structure RoundingOK (r : ℚ → ℚ) : Prop where
  mono : ∀ x y, x ≤ y → r x ≤ r y
  zero : r 0 = 0
  one : r 1 = 1
  half : r (1 / 2) = 1 / 2
  neg_half : r (-(1 / 2)) = -(1 / 2)

/-! ## rand_vec (lines 20-24) -/

/-- The right-hand side of line 22, `(float) rand() / RAND_MAX - 0.5`, stored into a
`float`, for the value `r` returned by `rand()`. -/
def rand_value (fs : FloatSem) (RAND_MAX : Nat) (r : Nat) : ℚ :=
  fs.f32 (fs.f64 (fs.f32 (fs.f32 (r : ℚ) / fs.f32 (RAND_MAX : ℚ)) - 1 / 2))

/-- The function `rand_vec`: the memory `m` after the loop, where the `i`-th call of `rand()`
returns `rand i`. -/
def rand_vec (fs : FloatSem) (RAND_MAX : Nat) (rand : Nat → Nat) (m : Nat → ℚ) (N : Nat) :
    Nat → ℚ :=
  (List.range N).foldl (fun mem i => Function.update mem i (rand_value fs RAND_MAX (rand i))) m

/-! ## Processes -/

/-- The OpenCL entry points the program calls. -/
inductive Api where
  | clGetPlatformIDs | clGetPlatformInfo | clGetDeviceIDs | clGetDeviceInfo
  | clCreateContext | clCreateCommandQueue | clCreateProgramWithBinary | clBuildProgram
  | clGetProgramBuildInfo | clCreateKernel | clCreateBuffer | clEnqueueWriteBuffer
  | clSetKernelArg | clEnqueueNDRangeKernel | clEnqueueReadBuffer
  | clReleaseMemObject | clReleaseKernel | clReleaseProgram | clReleaseCommandQueue
  | clReleaseContext
  deriving DecidableEq, Repr

/-- What a run does that can be observed: it issues an API call (the entry point, the source
line of the call and its size arguments) or prints a text on standard output. -/
inductive Event where
  | call (f : Api) (line : Nat) (args : List Nat)
  | print (text : String)
  deriving DecidableEq, Repr

/-- A computation that has run: either it returned `a`, or the process was terminated by
`exit(code)`; in both cases `tr` lists the events it produced, in order. -/
inductive Res (α : Type) where
  | ret (a : α) (tr : List Event)
  | exit (code : Int) (tr : List Event)
  deriving Repr

/-- Events of a run. -/
def Res.trace {α : Type} : Res α → List Event
  | .ret _ tr => tr
  | .exit _ tr => tr

/-- The run `r` preceded by the events `tr`. -/
def Res.after {α : Type} (tr : List Event) : Res α → Res α
  | .ret a t => .ret a (tr ++ t)
  | .exit code t => .exit code (tr ++ t)

/-- Sequencing: the second computation runs only if the first one returned, and its events
follow those of the first. -/
def Res.bind {α β : Type} (x : Res α) (f : α → Res β) : Res β :=
  match x with
  | .exit code tr => .exit code tr
  | .ret a tr => Res.after tr (f a)

instance : Monad Res where
  pure a := .ret a []
  bind := Res.bind

/-- Status `CL_SUCCESS` of `CL/cl.h`. -/
def CL_SUCCESS : Int := 0

/-- Status `CL_BUILD_PROGRAM_FAILURE` of `CL/cl.h`. -/
def CL_BUILD_PROGRAM_FAILURE : Int := -11

/-- Value of `EXIT_FAILURE` of `stdlib.h`. -/
def EXIT_FAILURE : Int := 1

/-- Value of `sizeof(float)`. -/
def SIZEOF_FLOAT : Nat := 4

/-- Value of `sizeof(int)`. -/
def SIZEOF_INT : Nat := 4

/-- Value of `sizeof(cl_mem)`. -/
def SIZEOF_CL_MEM : Nat := 8

/-- Everything the environment decides during a run. -/
structure Env where
  /-- expansion of `__FILE__` -/
  file : String
  /-- status returned by the `k`-th evaluation (from 0) of the API call written at `line` -/
  status : (line : Nat) → (k : Nat) → Int
  /-- name returned for `CL_PLATFORM_NAME` -/
  platform_name : String
  /-- name returned for `CL_DEVICE_NAME` -/
  device_name : String
  /-- text returned for `CL_PROGRAM_BUILD_LOG` -/
  build_log : String
  /-- content of the file of that name, `none` when `fopen` fails -/
  fopen : String → Option (List Nat)
  /-- whether the `malloc` of the `n`-th call (from 0) of `alloc_vec` succeeds -/
  malloc : Nat → Bool
  /-- value returned by the `k`-th call (from 0) of `rand()` -/
  rand : Nat → Nat
  /-- value of `RAND_MAX` of `stdlib.h` -/
  RAND_MAX : Nat
  /-- content of the device buffer `c_d` copied into `C` by `clEnqueueReadBuffer` -/
  readback : Nat → ℚ
  /-- text printed for a `%f` conversion -/
  fmt : ℚ → String
  /-- floating-point roundings -/
  fs : FloatSem

/-- Call `printf` with the text already formatted. -/
def printf (text : String) : Res Unit := .ret () [.print text]

/-- Call `exit(code)`. -/
def exit {α : Type} (code : Int) : Res α := .exit code []

/-- Issue the API call written at `line` (its `k`-th evaluation); the result is its status. -/
def api (env : Env) (f : Api) (line k : Nat) (args : List Nat) : Res Int :=
  .ret (env.status line k) [.call f line args]

/-- The text of `printf("[%s:%d] OpenCL error %d\n", __FILE__, __LINE__, err)`. -/
def error_line (file : String) (line : Nat) (err : Int) : String :=
  "[" ++ file ++ ":" ++ toString line ++ "] OpenCL error " ++ toString err ++ "\n"

/-- The macro `CHECK_ERROR(err)` (lines 6-10) expanded at `line`.  The argument is an
expression: it is evaluated once in the test and, when the test fails, once more as the
argument of `printf`; `err k` is its `k`-th evaluation. -/
def CHECK_ERROR (file : String) (line : Nat) (err : Nat → Res Int) : Res Unit := do
  let e ← err 0
  if e ≠ CL_SUCCESS then do
    let e2 ← err 1
    printf (error_line file line e2)
    exit EXIT_FAILURE
  else
    pure ()

/-- The function `alloc_vec` (lines 12-18); `malloc_ok` tells whether its `malloc` succeeds. -/
def alloc_vec (malloc_ok : Bool) (_N : Nat) : Res Unit :=
  if malloc_ok = false then do
    printf ("Failed to allocate memory for vector.\n")
    exit 0
  else
    pure ()

/-- The `for (int i = 0; i < N; ++i)` loop with loop-carried variables `σ`. -/
def for_loop {σ : Type} (N : Nat) (body : σ → Nat → Res σ) (init : σ) : Res σ :=
  (List.range N).foldlM body init

/-! ## check_vec_add (lines 26-56) -/

/-- The constant `float eps = 1e-3`. -/
def EPS (fs : FloatSem) : ℚ := fs.f32 (fs.f64 (1 / 1000))

/-- The constant `thr = 10`. -/
def THR : Nat := 10

/-- The condition of the `if` of line 41. -/
def mismatch (fs : FloatSem) (c c_ans : ℚ) : Bool :=
  decide (|fs.f32 (c - c_ans)| > EPS fs) &&
    (decide (c_ans = 0) || decide (|fs.f32 (fs.f32 (c - c_ans) / c_ans)| > EPS fs))

/-- The variables `cnt` and `is_valid` of `check_vec_add`. -/
structure CheckVars where
  cnt : Nat
  is_valid : Bool
  deriving DecidableEq, Repr

/-- The line printed for a mismatch at index `i`. -/
def mismatch_line (fmt : ℚ → String) (i : Nat) (c_ans c : ℚ) : String :=
  "C[" ++ toString i ++ "] : correct_value = " ++ fmt c_ans ++ ", your_value = " ++ fmt c ++ "\n"

/-- The notice printed at mismatch number `thr + 1`. -/
def too_many_line (thr : Nat) : String :=
  "Too many error, only first " ++ toString thr ++ " values are printed.\n"

/-- The body of the comparison loop (lines 39-48). -/
def check_body (fs : FloatSem) (fmt : ℚ → String) (C C_ans : Nat → ℚ) (v : CheckVars)
    (i : Nat) : Res CheckVars := do
  let c := C i
  let c_ans := C_ans i
  if mismatch fs c c_ans then do
    let cnt := v.cnt + 1
    if cnt ≤ THR then
      printf (mismatch_line fmt i c_ans c)
    if cnt = THR + 1 then
      printf (too_many_line THR)
    pure ⟨cnt, false⟩
  else
    pure v

/-- The reference vector after the loop of lines 31-33. -/
def compute_C_ans (fs : FloatSem) (A B : Nat → ℚ) (N : Nat) : Nat → ℚ :=
  (List.range N).foldl (fun mem i => Function.update mem i (fs.f32 (A i + B i))) (fun _ => 0)

/-- The function `check_vec_add`; `malloc_ok` tells whether the `malloc` of `C_ans` succeeds. -/
def check_vec_add (fs : FloatSem) (fmt : ℚ → String) (malloc_ok : Bool) (A B C : Nat → ℚ)
    (N : Nat) : Res Unit := do
  printf ("Validating...\n")
  alloc_vec malloc_ok N
  let C_ans := compute_C_ans fs A B N
  let v ← for_loop N (check_body fs fmt C C_ans) ⟨0, true⟩
  if v.is_valid then
    printf ("Result: VALID\n")
  else
    printf ("Result: INVALID\n")

/-! ## Platform, device and program (lines 58-115) -/

/-- The function `print_platform_info`. -/
def print_platform_info (env : Env) : Res Unit := do
  CHECK_ERROR env.file 61 (fun k => api env .clGetPlatformInfo 61 k [])
  CHECK_ERROR env.file 63 (fun k => api env .clGetPlatformInfo 63 k [])
  printf ("Detected OpenCL platform: " ++ env.platform_name ++ "\n")

/-- The function `print_device_info`. -/
def print_device_info (env : Env) : Res Unit := do
  CHECK_ERROR env.file 71 (fun k => api env .clGetDeviceInfo 71 k [])
  CHECK_ERROR env.file 73 (fun k => api env .clGetDeviceInfo 73 k [])
  printf ("Detected OpenCL device: " ++ env.device_name ++ "\n")

/-- The function `load_binary`: the content of the file (its length is `*size`), or `none`
for the null pointer returned when `fopen` fails. -/
def load_binary (env : Env) (filename : String) : Option (List Nat) :=
  match env.fopen filename with
  | none => none
  | some bytes => some bytes

/-- The function `create_and_build_program_with_binary`. -/
def create_and_build_program_with_binary (env : Env) (file_name : String) : Res Unit := do
  match load_binary env file_name with
  | none => do
    printf ("Failed to open " ++ file_name ++ "\n")
    exit EXIT_FAILURE
  | some binary => do
    let err ← api env .clCreateProgramWithBinary 100 0 [binary.length]
    CHECK_ERROR env.file 101 (fun _ => pure err)
    let err ← api env .clBuildProgram 103 0 []
    if err = CL_BUILD_PROGRAM_FAILURE then do
      CHECK_ERROR env.file 106 (fun k => api env .clGetProgramBuildInfo 106 k [])
      CHECK_ERROR env.file 108 (fun k => api env .clGetProgramBuildInfo 108 k [])
      printf ("Compile error:\n" ++ env.build_log ++ "\n")
    CHECK_ERROR env.file 113 (fun _ => pure err)

/-! ## main (lines 117-213) -/

/-- The element count `int N = 1024`. -/
def MAIN_N : Nat := 1024

/-- The function `main`; the result is the exit status it returns. -/
def main (env : Env) : Res Int := do
  let err ← api env .clGetPlatformIDs 130 0 []
  CHECK_ERROR env.file 131 (fun _ => pure err)
  print_platform_info env
  let err ← api env .clGetDeviceIDs 135 0 []
  CHECK_ERROR env.file 137 (fun _ => pure err)
  print_device_info env
  let err ← api env .clCreateContext 141 0 []
  CHECK_ERROR env.file 142 (fun _ => pure err)
  let err ← api env .clCreateCommandQueue 145 0 []
  CHECK_ERROR env.file 146 (fun _ => pure err)
  create_and_build_program_with_binary env "kernel.cl.sfb"
  let err ← api env .clCreateKernel 152 0 []
  CHECK_ERROR env.file 153 (fun _ => pure err)
  let N := MAIN_N
  alloc_vec (env.malloc 0) N
  alloc_vec (env.malloc 1) N
  alloc_vec (env.malloc 2) N
  let A := rand_vec env.fs env.RAND_MAX env.rand (fun _ => 0) N
  let B := rand_vec env.fs env.RAND_MAX (fun k => env.rand (N + k)) (fun _ => 0) N
  let bytes := size_mul N SIZEOF_FLOAT
  let err ← api env .clCreateBuffer 164 0 [bytes]
  CHECK_ERROR env.file 165 (fun _ => pure err)
  let err ← api env .clCreateBuffer 166 0 [bytes]
  CHECK_ERROR env.file 167 (fun _ => pure err)
  let err ← api env .clCreateBuffer 168 0 [bytes]
  CHECK_ERROR env.file 169 (fun _ => pure err)
  let err ← api env .clEnqueueWriteBuffer 172 0 [bytes]
  CHECK_ERROR env.file 173 (fun _ => pure err)
  let err ← api env .clEnqueueWriteBuffer 174 0 [bytes]
  CHECK_ERROR env.file 175 (fun _ => pure err)
  let err ← api env .clSetKernelArg 178 0 [0, SIZEOF_CL_MEM]
  CHECK_ERROR env.file 179 (fun _ => pure err)
  let err ← api env .clSetKernelArg 180 0 [1, SIZEOF_CL_MEM]
  CHECK_ERROR env.file 181 (fun _ => pure err)
  let err ← api env .clSetKernelArg 182 0 [2, SIZEOF_CL_MEM]
  CHECK_ERROR env.file 183 (fun _ => pure err)
  let err ← api env .clSetKernelArg 184 0 [3, SIZEOF_INT]
  CHECK_ERROR env.file 185 (fun _ => pure err)
  let gws := dispatch_gws N LWS
  let err ← api env .clEnqueueNDRangeKernel 195 0 [gws, LWS]
  CHECK_ERROR env.file 196 (fun _ => pure err)
  let err ← api env .clEnqueueReadBuffer 199 0 [bytes]
  CHECK_ERROR env.file 200 (fun _ => pure err)
  let C := env.readback
  check_vec_add env.fs env.fmt (env.malloc 3) A B C N
  let _ ← api env .clReleaseMemObject 204 0 []
  let _ ← api env .clReleaseMemObject 205 0 []
  let _ ← api env .clReleaseMemObject 206 0 []
  let _ ← api env .clReleaseKernel 207 0 []
  let _ ← api env .clReleaseProgram 208 0 []
  let _ ← api env .clReleaseCommandQueue 209 0 []
  let _ ← api env .clReleaseContext 210 0 []
  pure 0

/-- The indices below `n` at which the comparison of line 41 finds a mismatch, in increasing
order. -/
def mismatch_indices (fs : FloatSem) (C C_ans : Nat → ℚ) (n : Nat) : List Nat :=
  (List.range n).filter (fun i => mismatch fs (C i) (C_ans i))

/-- The report the specification describes for the mismatching indices `ms`: one line for each
of the first `THR` of them, then the notice, once, when there are more than `THR`. -/
def report_spec (fmt : ℚ → String) (C C_ans : Nat → ℚ) (ms : List Nat) : List Event :=
  (ms.take THR).map (fun i => Event.print (mismatch_line fmt i (C_ans i) (C i))) ++
    (if THR + 1 ≤ ms.length then [Event.print (too_many_line THR)] else [])

/-- The value `A[i] + B[i]`, computed in `float`, that line 32 stores into `C_ans[i]`. -/
def expected (fs : FloatSem) (A B : Nat → ℚ) (i : Nat) : ℚ := fs.f32 (A i + B i)

/-- The acceptance condition as the specification words it for the verdict: the absolute
difference is at most `eps`, or the expected value is nonzero and the relative difference is at
most `eps`. -/
def within_tolerance_spec (fs : FloatSem) (c e : ℚ) : Prop :=
  |fs.f32 (c - e)| ≤ EPS fs ∨ (e ≠ 0 ∧ |fs.f32 (fs.f32 (c - e) / e)| ≤ EPS fs)

/-- The mismatch condition as the specification words it for the comparison policy: the absolute
difference exceeds `eps`, and the expected value is nonzero, and the relative difference exceeds
`eps`. -/
def mismatch_policy_spec (fs : FloatSem) (c e : ℚ) : Prop :=
  |fs.f32 (c - e)| > EPS fs ∧ e ≠ 0 ∧ |fs.f32 (fs.f32 (c - e) / e)| > EPS fs

/-- The mismatch condition of the source, as a proposition: the absolute difference exceeds
`eps`, and the expected value is zero or the relative difference exceeds `eps`. -/
def mismatch_cond (fs : FloatSem) (c e : ℚ) : Prop :=
  |fs.f32 (c - e)| > EPS fs ∧ (e = 0 ∨ |fs.f32 (fs.f32 (c - e) / e)| > EPS fs)

instance (fs : FloatSem) (c e : ℚ) : Decidable (mismatch_cond fs c e) := by
  unfold mismatch_cond; infer_instance

instance (fs : FloatSem) (c e : ℚ) : Decidable (mismatch_policy_spec fs c e) := by
  unfold mismatch_policy_spec; infer_instance

instance (fs : FloatSem) (c e : ℚ) : Decidable (within_tolerance_spec fs c e) := by
  unfold within_tolerance_spec; infer_instance

/-- A model of the `%f` conversion of `printf` for a finite value: six decimals, rounded to
nearest with ties to even. -/
def printf_f (q : ℚ) : String :=
  let x : ℚ := |q| * 1000000
  let n : Nat := (Rat.floor x).toNat
  let frac : ℚ := x - n
  let n : Nat := if frac > 1 / 2 ∨ (frac = 1 / 2 ∧ n % 2 = 1) then n + 1 else n
  (if q < 0 then "-" else "") ++ toString (n / 1000000) ++ "." ++
    (toString (1000000 + n % 1000000)).drop 1

/-! ## Names for the segments of a run of main -/

/-- The events of lines 130-146 when every call succeeds: platform and device discovery,
context and queue creation. -/
def discovery_events (env : Env) : List Event :=
  [Event.call Api.clGetPlatformIDs 130 [],
   Event.call Api.clGetPlatformInfo 61 [],
   Event.call Api.clGetPlatformInfo 63 [],
   Event.print ("Detected OpenCL platform: " ++ env.platform_name ++ "\n"),
   Event.call Api.clGetDeviceIDs 135 [],
   Event.call Api.clGetDeviceInfo 71 [],
   Event.call Api.clGetDeviceInfo 73 [],
   Event.print ("Detected OpenCL device: " ++ env.device_name ++ "\n"),
   Event.call Api.clCreateContext 141 [],
   Event.call Api.clCreateCommandQueue 145 []]

/-- The events of lines 149-153 when every call succeeds, for a kernel file of `size` bytes. -/
def program_events (size : Nat) : List Event :=
  [Event.call Api.clCreateProgramWithBinary 100 [size],
   Event.call Api.clBuildProgram 103 [],
   Event.call Api.clCreateKernel 152 []]

/-- The eleven API calls of lines 164-199, in program order: three buffer creations, two
writes, four argument bindings, the kernel enqueue and the read-back. -/
def buffer_calls : List Event :=
  [Event.call Api.clCreateBuffer 164 [4096],
   Event.call Api.clCreateBuffer 166 [4096],
   Event.call Api.clCreateBuffer 168 [4096],
   Event.call Api.clEnqueueWriteBuffer 172 [4096],
   Event.call Api.clEnqueueWriteBuffer 174 [4096],
   Event.call Api.clSetKernelArg 178 [0, 8],
   Event.call Api.clSetKernelArg 180 [1, 8],
   Event.call Api.clSetKernelArg 182 [2, 8],
   Event.call Api.clSetKernelArg 184 [3, 4],
   Event.call Api.clEnqueueNDRangeKernel 195 [1024, 256],
   Event.call Api.clEnqueueReadBuffer 199 [4096]]

/-- The source lines of the API calls issued before the first buffer is created, in program
order: discovery (lines 130-145), then program and kernel creation (lines 100, 103, 152). -/
def startup_lines : List Nat := [130, 61, 63, 135, 71, 73, 141, 145, 100, 103, 152]

/-- The source lines of the calls of `discovery_events`. -/
def discovery_lines : List Nat := [130, 61, 63, 135, 71, 73, 141, 145]

/-- The source lines of the calls of `buffer_calls`. -/
def buffer_lines : List Nat := [164, 166, 168, 172, 174, 178, 180, 182, 184, 195, 199]

/-- The seven release calls of lines 204-210, in program order. -/
def release_calls : List Event :=
  [Event.call Api.clReleaseMemObject 204 [],
   Event.call Api.clReleaseMemObject 205 [],
   Event.call Api.clReleaseMemObject 206 [],
   Event.call Api.clReleaseKernel 207 [],
   Event.call Api.clReleaseProgram 208 [],
   Event.call Api.clReleaseCommandQueue 209 [],
   Event.call Api.clReleaseContext 210 []]

/-- The vector `A` of main after `rand_vec(A, N)`. -/
def main_A (env : Env) : Nat → ℚ :=
  rand_vec env.fs env.RAND_MAX env.rand (fun _ => 0) MAIN_N

/-- The vector `B` of main after `rand_vec(B, N)`. -/
def main_B (env : Env) : Nat → ℚ :=
  rand_vec env.fs env.RAND_MAX (fun k => env.rand (MAIN_N + k)) (fun _ => 0) MAIN_N

/-- An environment in which every call succeeds and the device returns `-1` everywhere:
`rand()` always returns `0`, so `A[i] = B[i] = -0.5`. -/
def Env.sample : Env where
  file := "vec_add.c"
  status := fun _ _ => CL_SUCCESS
  platform_name := "Platform"
  device_name := "Device"
  build_log := "error: kernel"
  fopen := fun name => if name = "kernel.cl.sfb" then some [0, 1, 2, 3] else none
  malloc := fun _ => true
  rand := fun _ => 0
  RAND_MAX := 2147483647
  readback := fun _ => -1
  fmt := printf_f
  fs := FloatSem.exact

/-- The environment `Env.sample` with a failing first release call (line 204 returns
`CL_INVALID_MEM_OBJECT`, `-38`). -/
def Env.sample_release_fails : Env :=
  { Env.sample with status := fun l _ => if l = 204 then -38 else CL_SUCCESS }

/-- The environment `Env.sample` with a build step that returns `CL_BUILD_PROGRAM_FAILURE`. -/
def Env.sample_build_fails : Env :=
  { Env.sample with status := fun l _ => if l = 103 then CL_BUILD_PROGRAM_FAILURE else CL_SUCCESS }

/-- The environment `Env.sample` with a build failure whose first build-log query fails (line
106 returns `CL_INVALID_VALUE`, `-30`). -/
def Env.sample_log_query_fails : Env :=
  { Env.sample with
    status := fun l _ =>
      if l = 103 then CL_BUILD_PROGRAM_FAILURE else if l = 106 then -30 else CL_SUCCESS }

/-! ## The validator over any floating-point arithmetic

The comparisons of line 41 are false on NaN, which the rational values above cannot show.  This
section embeds `check_vec_add` a second time, over an arbitrary carrier of `float` values and
arbitrary operations on it, so that what is proved of it holds with NaN and the infinities
present.  `ieee_check_vec_add_rounded` relates the two embeddings. -/

/-- The `float` operations `check_vec_add` uses, over a carrier `F` of `float` values that may
hold NaN and the infinities.  Nothing is assumed of the operations. -/
structure FloatOps where
  /-- the values of type `float` -/
  F : Type
  /-- the operator `+` on `float` -/
  add : F → F → F
  /-- the operator `-` on `float` -/
  sub : F → F → F
  /-- the operator `/` on `float` -/
  div : F → F → F
  /-- the function `fabsf` -/
  fabsf : F → F
  /-- the comparison `>` -/
  gt : F → F → Bool
  /-- the comparison `<=`; the source does not use it, the specification states the tolerance
  with it -/
  le : F → F → Bool
  /-- the comparison `== 0`; `!= 0` is its negation -/
  eq_zero : F → Bool
  /-- the constant `float eps = 1e-3` -/
  eps : F
  /-- text printed for a `%f` conversion -/
  fmt : F → String

/-- The operations of the rational embedding: exact operations followed by the rounding to
`float`. -/
def FloatOps.rounded (fs : FloatSem) (fmt : ℚ → String) : FloatOps where
  F := ℚ
  add := fun a b => fs.f32 (a + b)
  sub := fun a b => fs.f32 (a - b)
  div := fun a b => fs.f32 (a / b)
  fabsf := fun a => |a|
  gt := fun a b => decide (a > b)
  le := fun a b => decide (a ≤ b)
  eq_zero := fun a => decide (a = 0)
  eps := EPS fs
  fmt := fmt

/-- A `float` value in exact arithmetic: a number, an infinity (`inf true` is the negative
one) or NaN.  Zero is unsigned: the sign of a zero matters only to a division by zero, which
line 41 never evaluates. -/
inductive FVal where
  | num (q : ℚ)
  | inf (negative : Bool)
  | nan
  deriving DecidableEq, Repr

/-- Negation. -/
def FVal.neg : FVal → FVal
  | .num q => .num (-q)
  | .inf s => .inf (!s)
  | .nan => .nan

/-- Addition: NaN when an operand is NaN or the operands are opposite infinities. -/
def FVal.add : FVal → FVal → FVal
  | .nan, _ => .nan
  | _, .nan => .nan
  | .inf s, .inf t => if s = t then .inf s else .nan
  | .inf s, .num _ => .inf s
  | .num _, .inf t => .inf t
  | .num a, .num b => .num (a + b)

/-- Subtraction. -/
def FVal.sub (a b : FVal) : FVal := FVal.add a (FVal.neg b)

/-- Division: NaN when an operand is NaN and for `inf / inf` and `0 / 0`. -/
def FVal.div : FVal → FVal → FVal
  | .nan, _ => .nan
  | _, .nan => .nan
  | .inf _, .inf _ => .nan
  | .inf s, .num b => .inf (xor s (decide (b < 0)))
  | .num _, .inf _ => .num 0
  | .num a, .num b =>
    if b = 0 then (if a = 0 then .nan else .inf (decide (a < 0))) else .num (a / b)

/-- The function `fabsf`. -/
def FVal.fabsf : FVal → FVal
  | .num q => .num |q|
  | .inf _ => .inf false
  | .nan => .nan

/-- The comparison `>`: false when an operand is NaN. -/
def FVal.gt : FVal → FVal → Bool
  | .nan, _ => false
  | _, .nan => false
  | .inf s, .inf t => !s && t
  | .inf s, .num _ => !s
  | .num _, .inf t => t
  | .num a, .num b => decide (a > b)

/-- The comparison `<=`: false when an operand is NaN. -/
def FVal.le : FVal → FVal → Bool
  | .nan, _ => false
  | _, .nan => false
  | .inf s, .inf t => s || !t
  | .inf s, .num _ => s
  | .num _, .inf t => !t
  | .num a, .num b => decide (a ≤ b)

/-- The comparison `== 0`. -/
def FVal.eq_zero : FVal → Bool
  | .num q => decide (q = 0)
  | _ => false

/-- Text of a `%f` conversion. -/
def FVal.fmt : FVal → String
  | .num q => printf_f q
  | .inf false => "inf"
  | .inf true => "-inf"
  | .nan => "nan"

/-- Exact arithmetic with the infinities and NaN. -/
def FloatOps.exact : FloatOps where
  F := FVal
  add := FVal.add
  sub := FVal.sub
  div := FVal.div
  fabsf := FVal.fabsf
  gt := FVal.gt
  le := FVal.le
  eq_zero := FVal.eq_zero
  eps := FVal.num (1 / 1000)
  fmt := FVal.fmt

namespace Ieee

/-- The condition of the `if` of line 41. -/
def mismatch (ops : FloatOps) (c c_ans : ops.F) : Bool :=
  ops.gt (ops.fabsf (ops.sub c c_ans)) ops.eps &&
    (ops.eq_zero c_ans || ops.gt (ops.fabsf (ops.div (ops.sub c c_ans) c_ans)) ops.eps)

/-- The line printed for a mismatch at index `i`. -/
def mismatch_line (ops : FloatOps) (i : Nat) (c_ans c : ops.F) : String :=
  "C[" ++ toString i ++ "] : correct_value = " ++ ops.fmt c_ans ++ ", your_value = " ++
    ops.fmt c ++ "\n"

/-- The body of the comparison loop (lines 39-48). -/
def check_body (ops : FloatOps) (C C_ans : Nat → ops.F) (v : CheckVars) (i : Nat) :
    Res CheckVars := do
  let c := C i
  let c_ans := C_ans i
  if mismatch ops c c_ans then do
    let cnt := v.cnt + 1
    if cnt ≤ THR then
      printf (mismatch_line ops i c_ans c)
    if cnt = THR + 1 then
      printf (too_many_line THR)
    pure ⟨cnt, false⟩
  else
    pure v

/-- The reference vector after the loop of lines 31-33; `mem` is the content of the block
`malloc` returned. -/
def compute_C_ans (ops : FloatOps) (mem A B : Nat → ops.F) (N : Nat) : Nat → ops.F :=
  (List.range N).foldl (fun m i => Function.update m i (ops.add (A i) (B i))) mem

/-- The function `check_vec_add`; `malloc_ok` tells whether the `malloc` of `C_ans` succeeds
and `mem` is the content of the block it returns. -/
def check_vec_add (ops : FloatOps) (malloc_ok : Bool) (mem A B C : Nat → ops.F) (N : Nat) :
    Res Unit := do
  printf ("Validating...\n")
  alloc_vec malloc_ok N
  let C_ans := compute_C_ans ops mem A B N
  let v ← for_loop N (check_body ops C C_ans) ⟨0, true⟩
  if v.is_valid then
    printf ("Result: VALID\n")
  else
    printf ("Result: INVALID\n")

/-- The indices below `n` at which the comparison of line 41 finds a mismatch, in increasing
order. -/
def mismatch_indices (ops : FloatOps) (C C_ans : Nat → ops.F) (n : Nat) : List Nat :=
  (List.range n).filter (fun i => mismatch ops (C i) (C_ans i))

/-- The lines of the comparison loop for the mismatching indices `ms`. -/
def report (ops : FloatOps) (C C_ans : Nat → ops.F) (ms : List Nat) : List Event :=
  (ms.take THR).map (fun i => Event.print (mismatch_line ops i (C_ans i) (C i))) ++
    (if THR + 1 ≤ ms.length then [Event.print (too_many_line THR)] else [])

/-- The acceptance condition as the specification words it for the verdict: the absolute
difference is at most `eps`, or the expected value is nonzero and the relative difference is at
most `eps`. -/
def within_tolerance_spec (ops : FloatOps) (c e : ops.F) : Prop :=
  ops.le (ops.fabsf (ops.sub c e)) ops.eps = true ∨
    (ops.eq_zero e = false ∧ ops.le (ops.fabsf (ops.div (ops.sub c e) e)) ops.eps = true)

/-- The value `x` is ordered with respect to `eps`: `x <= eps` holds exactly when `x > eps`
does not.  With IEEE comparisons this says that `x` is not NaN. -/
def ordered (ops : FloatOps) (x : ops.F) : Prop :=
  ops.le x ops.eps = !ops.gt x ops.eps

/-- No compared value of the element is NaN: the absolute difference is ordered with respect
to `eps` and so is, where the expected value is nonzero, the relative difference. -/
def no_nan (ops : FloatOps) (c e : ops.F) : Prop :=
  ordered ops (ops.fabsf (ops.sub c e)) ∧
    (ops.eq_zero e = false → ordered ops (ops.fabsf (ops.div (ops.sub c e) e)))

end Ieee

/-! ## Laws of sequencing -/

@[simp] theorem ret_bind {α β : Type} (a : α) (tr : List Event) (f : α → Res β) :
    (Res.ret a tr >>= f) = Res.after tr (f a) := by
  rfl

@[simp] theorem exit_bind {α β : Type} (c : Int) (tr : List Event) (f : α → Res β) :
    (Res.exit c tr >>= f) = Res.exit c tr := rfl

@[simp] theorem pure_eq_ret {α : Type} (a : α) : (pure a : Res α) = Res.ret a [] := rfl

@[simp] theorem after_ret {α : Type} (tr t : List Event) (a : α) :
    Res.after tr (Res.ret a t) = Res.ret a (tr ++ t) := rfl

@[simp] theorem after_exit {α : Type} (tr t : List Event) (c : Int) :
    Res.after tr (Res.exit c t : Res α) = Res.exit c (tr ++ t) := rfl

@[simp] theorem after_nil {α : Type} (r : Res α) : Res.after [] r = r := by
  cases r <;> rfl

@[simp] theorem after_after {α : Type} (t1 t2 : List Event) (r : Res α) :
    Res.after t1 (Res.after t2 r) = Res.after (t1 ++ t2) r := by
  cases r <;> simp [Res.after]

theorem after_bind {α β : Type} (tr : List Event) (r : Res α) (f : α → Res β) :
    (Res.after tr r >>= f) = Res.after tr (r >>= f) := by
  cases r <;> simp

instance : LawfulMonad Res := LawfulMonad.mk' Res
  (by
    intro α x
    show (x >>= fun a => pure (id a)) = x
    cases x <;> simp)
  (by intros; simp)
  (by
    intro α β γ x f g
    cases x <;> simp [after_bind])

/-! ## The loops of check_vec_add -/

theorem for_loop_zero {σ : Type} (body : σ → Nat → Res σ) (init : σ) :
    for_loop 0 body init = Res.ret init [] := by
  simp [for_loop]

theorem for_loop_succ {σ : Type} (n : Nat) (body : σ → Nat → Res σ) (init : σ) :
    for_loop (n + 1) body init = (for_loop n body init >>= fun s => body s n) := by
  simp only [for_loop, List.range_succ, List.foldlM_append, List.foldlM_cons, List.foldlM_nil,
    bind_pure]

theorem compute_C_ans_succ (fs : FloatSem) (A B : Nat → ℚ) (n : Nat) :
    compute_C_ans fs A B (n + 1)
      = Function.update (compute_C_ans fs A B n) n (fs.f32 (A n + B n)) := by
  simp [compute_C_ans, List.range_succ, List.foldl_append]

theorem compute_C_ans_eq (fs : FloatSem) (A B : Nat → ℚ) (n i : Nat) (h : i < n) :
    compute_C_ans fs A B n i = fs.f32 (A i + B i) := by
  induction n with
  | zero => omega
  | succ n ih =>
    rw [compute_C_ans_succ]
    by_cases hi : i = n
    · subst hi; simp
    · rw [Function.update_noteq hi]
      exact ih (by omega)

theorem mismatch_indices_succ (fs : FloatSem) (C C_ans : Nat → ℚ) (n : Nat) :
    mismatch_indices fs C C_ans (n + 1)
      = mismatch_indices fs C C_ans n ++ (if mismatch fs (C n) (C_ans n) then [n] else []) := by
  simp [mismatch_indices, List.range_succ, List.filter_append, List.filter_cons]

theorem check_loop_eq (fs : FloatSem) (fmt : ℚ → String) (C C_ans : Nat → ℚ) (n : Nat) :
    for_loop n (check_body fs fmt C C_ans) ⟨0, true⟩
      = Res.ret ⟨(mismatch_indices fs C C_ans n).length,
            decide ((mismatch_indices fs C C_ans n).length = 0)⟩
          (report_spec fmt C C_ans (mismatch_indices fs C C_ans n)) := by
  induction n with
  | zero => simp [for_loop_zero, mismatch_indices, report_spec, THR]
  | succ n ih =>
    rw [for_loop_succ, ih, mismatch_indices_succ]
    by_cases hm : mismatch fs (C n) (C_ans n) = true
    · generalize mismatch_indices fs C C_ans n = ms
      rcases Nat.lt_trichotomy ms.length THR with hlt | heq | hgt
      · have h1 : ms.length + 1 ≤ THR := hlt
        have h2 : ¬ ms.length = THR := by omega
        have h3 : ¬ THR + 1 ≤ ms.length := by omega
        have h4 : ¬ THR + 1 ≤ ms.length + 1 := by omega
        have h5 : ms.length ≤ THR := by omega
        obtain ⟨k, hk⟩ : ∃ k, THR - ms.length = k + 1 := ⟨THR - ms.length - 1, by omega⟩
        simp [check_body, hm, printf, report_spec, h1, h2, h3, h4,
          List.take_append_eq_append_take, List.take_of_length_le h5, hk]
      · have h1 : ¬ ms.length + 1 ≤ THR := by omega
        have h3 : ¬ THR + 1 ≤ ms.length := by omega
        have h4 : THR + 1 ≤ ms.length + 1 := by omega
        have h5 : ms.length ≤ THR := by omega
        have hk : THR - ms.length = 0 := by omega
        simp [check_body, hm, printf, report_spec, h1, heq, h3, h4,
          List.take_append_eq_append_take, List.take_of_length_le h5, hk]
      · have h1 : ¬ ms.length + 1 ≤ THR := by omega
        have h2 : ¬ ms.length = THR := by omega
        have h3 : THR + 1 ≤ ms.length := by omega
        have h4 : THR + 1 ≤ ms.length + 1 := by omega
        have hk : THR - ms.length = 0 := by omega
        simp [check_body, hm, printf, report_spec, h1, h2, h3, h4,
          List.take_append_eq_append_take, hk]
    · simp at hm
      simp [check_body, hm]

/-! ## Dispatch size -/

theorem dispatch_gws_eq (N : Nat) (hN : N ≤ INT_MAX) :
    dispatch_gws N LWS = (N + 255) / 256 * 256 := by
  simp only [dispatch_gws, size_mul, size_sub, size_add, SIZE_MOD, LWS, INT_MAX] at *
  norm_num
  omega

theorem ceil_div_256 (N : Nat) : ⌈(N : ℚ) / 256⌉₊ = (N + 255) / 256 := by
  apply le_antisymm
  · rw [Nat.ceil_le, div_le_iff₀ (by norm_num)]
    have : N ≤ (N + 255) / 256 * 256 := by omega
    exact_mod_cast this
  · by_contra h
    push_neg at h
    have h1 : ⌈(N : ℚ) / 256⌉₊ + 1 ≤ (N + 255) / 256 := h
    have h2 : (N : ℚ) / 256 ≤ (⌈(N : ℚ) / 256⌉₊ : ℚ) := Nat.le_ceil _
    rw [div_le_iff₀ (by norm_num)] at h2
    have h3 : N ≤ ⌈(N : ℚ) / 256⌉₊ * 256 := by exact_mod_cast h2
    omega

/-- C1: for every element count `N` of type `int` with `N ≥ 0` and the local size 256, the
global size computed at line 191 in `size_t` arithmetic is divisible by 256, is at least `N`, is
less than `N + 256`, is the smallest multiple of 256 that is at least `N`, and equals
`ceil(N / 256) * 256`; for `N = 1024` it is 1024. -/
theorem dispatch_gws_rounds_up (N : Nat) (hN : N ≤ INT_MAX) :
    LWS ∣ dispatch_gws N LWS ∧ N ≤ dispatch_gws N LWS ∧ dispatch_gws N LWS < N + LWS ∧
      (∀ m : Nat, LWS ∣ m → N ≤ m → dispatch_gws N LWS ≤ m) ∧
      dispatch_gws N LWS = ⌈(N : ℚ) / 256⌉₊ * 256 ∧
      dispatch_gws MAIN_N LWS = 1024 := by
  rw [ceil_div_256, dispatch_gws_eq N hN]
  refine ⟨⟨(N + 255) / 256, by simp [LWS, Nat.mul_comm]⟩, ?_, ?_, ?_, rfl, by decide⟩
  · omega
  · simp only [LWS]; omega
  · rintro m ⟨k, rfl⟩ hk
    simp only [LWS] at *
    omega

/-- Witness of C1 at `N = 1000`. -/
theorem dispatch_gws_rounds_up_witness :
    1000 ≤ INT_MAX ∧
      (LWS ∣ dispatch_gws 1000 LWS ∧ 1000 ≤ dispatch_gws 1000 LWS ∧
        dispatch_gws 1000 LWS < 1000 + LWS ∧
        (∀ m : Nat, LWS ∣ m → 1000 ≤ m → dispatch_gws 1000 LWS ≤ m) ∧
        dispatch_gws 1000 LWS = ⌈((1000 : Nat) : ℚ) / 256⌉₊ * 256 ∧
        dispatch_gws MAIN_N LWS = 1024) :=
  ⟨by decide, dispatch_gws_rounds_up 1000 (by decide)⟩

/-! ## check_vec_add -/

theorem mismatch_iff (fs : FloatSem) (c e : ℚ) :
    mismatch fs c e = true ↔ mismatch_cond fs c e := by
  simp [mismatch, mismatch_cond]

theorem mismatch_indices_lt (fs : FloatSem) (C C_ans : Nat → ℚ) (n i : Nat)
    (h : i ∈ mismatch_indices fs C C_ans n) : i < n := by
  simp [mismatch_indices] at h
  exact h.1

theorem mismatch_indices_congr (fs : FloatSem) (C E1 E2 : Nat → ℚ) (n : Nat)
    (h : ∀ i, i < n → E1 i = E2 i) :
    mismatch_indices fs C E1 n = mismatch_indices fs C E2 n := by
  unfold mismatch_indices
  apply List.filter_congr
  intro i hi
  rw [h i (List.mem_range.mp hi)]

theorem report_spec_congr (fmt : ℚ → String) (C E1 E2 : Nat → ℚ) (ms : List Nat)
    (h : ∀ i, i ∈ ms → E1 i = E2 i) :
    report_spec fmt C E1 ms = report_spec fmt C E2 ms := by
  unfold report_spec
  congr 1
  apply List.map_congr_left
  intro i hi
  rw [h i (List.mem_of_mem_take hi)]

/-- The whole run of `check_vec_add` when the allocation of `C_ans` succeeds. -/
theorem check_vec_add_run (fs : FloatSem) (fmt : ℚ → String) (A B C : Nat → ℚ) (N : Nat) :
    check_vec_add fs fmt true A B C N
      = Res.ret () (Event.print "Validating...\n" ::
          (report_spec fmt C (expected fs A B) (mismatch_indices fs C (expected fs A B) N) ++
            [Event.print (if (mismatch_indices fs C (expected fs A B) N).length = 0
              then "Result: VALID\n" else "Result: INVALID\n")])) := by
  have hE : ∀ i, i < N → compute_C_ans fs A B N i = expected fs A B i :=
    fun i hi => compute_C_ans_eq fs A B N i hi
  have h1 := mismatch_indices_congr fs C _ _ N hE
  have h2 := report_spec_congr fmt C (compute_C_ans fs A B N) (expected fs A B)
    (mismatch_indices fs C (expected fs A B) N)
    (fun i hi => hE i (mismatch_indices_lt fs C _ N i hi))
  simp only [check_vec_add, alloc_vec, printf, check_loop_eq, h1, h2]
  by_cases hz : (mismatch_indices fs C (expected fs A B) N).length = 0
  · simp [hz]
  · simp [hz]

theorem check_body_eq (fs : FloatSem) (fmt : ℚ → String) (C C_ans : Nat → ℚ) (v : CheckVars)
    (i : Nat) :
    check_body fs fmt C C_ans v i =
      if mismatch_cond fs (C i) (C_ans i) then
        Res.ret ⟨v.cnt + 1, false⟩
          ((if v.cnt + 1 ≤ 10 then [Event.print (mismatch_line fmt i (C_ans i) (C i))] else []) ++
            (if v.cnt + 1 = 11 then [Event.print (too_many_line 10)] else []))
      else Res.ret v [] := by
  by_cases h : mismatch_cond fs (C i) (C_ans i)
  · have hm := (mismatch_iff fs _ _).mpr h
    rw [if_pos h]
    by_cases h1 : v.cnt + 1 ≤ 10 <;> by_cases h2 : v.cnt = 10 <;>
      simp [check_body, hm, THR, printf, h1, h2]
  · have hm : mismatch fs (C i) (C_ans i) = false := by
      rw [← Bool.not_eq_true, mismatch_iff]; exact h
    simp [check_body, hm, h]

/-- C3 (amended): in `check_vec_add`, for every index `i < N`, with expected value
`e = A[i] + B[i]`, element `i` is counted as a mismatch (the count grows by one and the vector
is marked invalid) exactly when `|C[i] - e| > eps` and (`e` is zero or
`|(C[i] - e) / e| > eps`); the count after the loop is the number of such indices.  In
particular an element whose expected value is exactly zero is counted as a mismatch exactly when
`|C[i]| > eps`. -/
theorem check_vec_add_mismatch_policy (fs : FloatSem) (fmt : ℚ → String) (A B C : Nat → ℚ)
    (N : Nat) :
    (∀ (v : CheckVars) (i : Nat), i < N →
      check_body fs fmt C (compute_C_ans fs A B N) v i =
        if mismatch_cond fs (C i) (expected fs A B i) then
          Res.ret ⟨v.cnt + 1, false⟩
            ((if v.cnt + 1 ≤ 10 then
                [Event.print (mismatch_line fmt i (expected fs A B i) (C i))] else []) ++
              (if v.cnt + 1 = 11 then [Event.print (too_many_line 10)] else []))
        else Res.ret v []) ∧
    (∃ tr, for_loop N (check_body fs fmt C (compute_C_ans fs A B N)) ⟨0, true⟩ =
      Res.ret
        ⟨((List.range N).filter
            (fun i => decide (mismatch_cond fs (C i) (expected fs A B i)))).length,
          decide (((List.range N).filter
            (fun i => decide (mismatch_cond fs (C i) (expected fs A B i)))).length = 0)⟩ tr) ∧
    (∀ c : ℚ, mismatch_cond fs c 0 ↔ |fs.f32 c| > EPS fs) := by
  refine ⟨?_, ?_, ?_⟩
  · intro v i hi
    rw [check_body_eq, compute_C_ans_eq fs A B N i hi]
    rfl
  · have hE : ∀ i, i < N → compute_C_ans fs A B N i = expected fs A B i :=
      fun i hi => compute_C_ans_eq fs A B N i hi
    have hf : mismatch_indices fs C (compute_C_ans fs A B N) N =
        (List.range N).filter (fun i => decide (mismatch_cond fs (C i) (expected fs A B i))) := by
      unfold mismatch_indices
      apply List.filter_congr
      intro i hi
      rw [hE i (List.mem_range.mp hi)]
      by_cases h : mismatch_cond fs (C i) (expected fs A B i)
      · simp [h, (mismatch_iff fs _ _).mpr h]
      · have : mismatch fs (C i) (expected fs A B i) = false := by
          rw [← Bool.not_eq_true, mismatch_iff]; exact h
        simp [h, this]
    rw [check_loop_eq, hf]
    exact ⟨_, rfl⟩
  · intro c
    simp [mismatch_cond]

theorem exact_EPS : EPS FloatSem.exact = 1 / 1000 := rfl

/-- Counterexample to C3: with `N = 1`, `A[0] = B[0] = 0` and `C[0] = 1` the expected value is
exactly zero, the condition of the claim does not hold, and yet element 0 is counted as a
mismatch: its line is printed and the verdict is "Result: INVALID". -/
theorem check_vec_add_mismatch_policy_counterexample :
    check_vec_add FloatSem.exact printf_f true (fun _ => 0) (fun _ => 0) (fun _ => 1) 1 =
        Res.ret () [Event.print "Validating...\n",
          Event.print (mismatch_line printf_f 0 0 1),
          Event.print "Result: INVALID\n"] ∧
      expected FloatSem.exact (fun _ => 0) (fun _ => 0) 0 = 0 ∧
      ¬ mismatch_policy_spec FloatSem.exact 1
          (expected FloatSem.exact (fun _ => 0) (fun _ => 0) 0) := by
  have hm : mismatch FloatSem.exact 1 0 = true := by
    rw [mismatch_iff]
    simp only [mismatch_cond, exact_EPS]
    simp only [FloatSem.exact]
    norm_num
  have he : expected FloatSem.exact (fun _ => 0) (fun _ => 0) 0 = 0 := by
    simp [expected, FloatSem.exact]
  refine ⟨?_, he, ?_⟩
  · rw [check_vec_add_run]
    have hx : expected FloatSem.exact (fun _ => 0) (fun _ => 0) = fun _ => 0 := by
      funext i; simp [expected, FloatSem.exact]
    simp [hx, mismatch_indices, report_spec, THR, hm, List.range_succ]
  · rw [he]
    simp [mismatch_policy_spec]

theorem rand_vec_succ (fs : FloatSem) (RAND_MAX : Nat) (rand : Nat → Nat) (m : Nat → ℚ)
    (n : Nat) :
    rand_vec fs RAND_MAX rand m (n + 1)
      = Function.update (rand_vec fs RAND_MAX rand m n) n (rand_value fs RAND_MAX (rand n)) := by
  simp [rand_vec, List.range_succ, List.foldl_append]

theorem rand_vec_eq (fs : FloatSem) (RAND_MAX : Nat) (rand : Nat → Nat) (m : Nat → ℚ)
    (n i : Nat) (h : i < n) :
    rand_vec fs RAND_MAX rand m n i = rand_value fs RAND_MAX (rand i) := by
  induction n with
  | zero => omega
  | succ n ih =>
    rw [rand_vec_succ]
    by_cases hi : i = n
    · subst hi; simp
    · rw [Function.update_noteq hi]
      exact ih (by omega)

theorem exact_rounding_ok : RoundingOK FloatSem.exact.f32 ∧ RoundingOK FloatSem.exact.f64 :=
  ⟨⟨fun _ _ h => h, rfl, rfl, rfl, rfl⟩, ⟨fun _ _ h => h, rfl, rfl, rfl, rfl⟩⟩

theorem rounding_le_half (r : ℚ → ℚ) (hr : RoundingOK r) (x : ℚ) (h : x ≤ 1 / 2) :
    r x ≤ 1 / 2 := by
  have := hr.mono x (1 / 2) h
  rwa [hr.half] at this

theorem rounding_ge_neg_half (r : ℚ → ℚ) (hr : RoundingOK r) (x : ℚ) (h : -(1 / 2) ≤ x) :
    -(1 / 2) ≤ r x := by
  have := hr.mono (-(1 / 2)) x h
  rwa [hr.neg_half] at this

theorem rand_value_bounds (fs : FloatSem) (h32 : RoundingOK fs.f32) (h64 : RoundingOK fs.f64)
    (RAND_MAX r : Nat) (hr : r ≤ RAND_MAX) :
    -(1 / 2) ≤ rand_value fs RAND_MAX r ∧ rand_value fs RAND_MAX r ≤ 1 / 2 := by
  have h0 : 0 ≤ fs.f32 (r : ℚ) := by
    have := h32.mono 0 (r : ℚ) (by exact_mod_cast Nat.zero_le r)
    rwa [h32.zero] at this
  have h1 : fs.f32 (r : ℚ) ≤ fs.f32 (RAND_MAX : ℚ) :=
    h32.mono _ _ (by exact_mod_cast hr)
  have hq0 : 0 ≤ fs.f32 (r : ℚ) / fs.f32 (RAND_MAX : ℚ) := div_nonneg h0 (le_trans h0 h1)
  have hq1 : fs.f32 (r : ℚ) / fs.f32 (RAND_MAX : ℚ) ≤ 1 := div_le_one_of_le₀ h1 (le_trans h0 h1)
  have hf0 : 0 ≤ fs.f32 (fs.f32 (r : ℚ) / fs.f32 (RAND_MAX : ℚ)) := by
    have := h32.mono _ _ hq0
    rwa [h32.zero] at this
  have hf1 : fs.f32 (fs.f32 (r : ℚ) / fs.f32 (RAND_MAX : ℚ)) ≤ 1 := by
    have := h32.mono _ _ hq1
    rwa [h32.one] at this
  unfold rand_value
  constructor
  · apply rounding_ge_neg_half _ h32
    apply rounding_ge_neg_half _ h64
    linarith
  · apply rounding_le_half _ h32
    apply rounding_le_half _ h64
    linarith

theorem rand_value_zero (fs : FloatSem) (h32 : RoundingOK fs.f32) (h64 : RoundingOK fs.f64)
    (RAND_MAX : Nat) : rand_value fs RAND_MAX 0 = -(1 / 2) := by
  unfold rand_value
  rw [Nat.cast_zero, h32.zero, zero_div, h32.zero, zero_sub, h64.neg_half, h32.neg_half]

theorem rand_value_max (fs : FloatSem) (h32 : RoundingOK fs.f32) (h64 : RoundingOK fs.f64)
    (RAND_MAX : Nat) (hpos : 0 < RAND_MAX) : rand_value fs RAND_MAX RAND_MAX = 1 / 2 := by
  have h1 : (1 : ℚ) ≤ fs.f32 (RAND_MAX : ℚ) := by
    have := h32.mono 1 (RAND_MAX : ℚ) (by exact_mod_cast hpos)
    rwa [h32.one] at this
  have hne : fs.f32 (RAND_MAX : ℚ) ≠ 0 := by linarith
  unfold rand_value
  rw [div_self hne, h32.one]
  norm_num
  rw [h64.half, h32.half]

/-- C5 (amended): for every `N` and every sequence of values returned by `rand()` (each at
most `RAND_MAX`, with `RAND_MAX > 0`), under roundings that are monotone and leave `-0.5`, `0`,
`0.5` and `1` unchanged, every one of the `N` elements written by `rand_vec` satisfies
`-0.5 <= v <= 0.5`; the value is `-0.5` when `rand()` returns `0` and `0.5` when `rand()`
returns `RAND_MAX`, so both bounds are attained. -/
theorem rand_vec_range (fs : FloatSem) (RAND_MAX : Nat) (rand : Nat → Nat) (m : Nat → ℚ)
    (N : Nat) (h32 : RoundingOK fs.f32) (h64 : RoundingOK fs.f64) (hpos : 0 < RAND_MAX)
    (hrand : ∀ k, rand k ≤ RAND_MAX) :
    ∀ i, i < N →
      -(1 / 2) ≤ rand_vec fs RAND_MAX rand m N i ∧ rand_vec fs RAND_MAX rand m N i ≤ 1 / 2 ∧
      (rand i = 0 → rand_vec fs RAND_MAX rand m N i = -(1 / 2)) ∧
      (rand i = RAND_MAX → rand_vec fs RAND_MAX rand m N i = 1 / 2) := by
  intro i hi
  rw [rand_vec_eq fs RAND_MAX rand m N i hi]
  obtain ⟨hlo, hhi⟩ := rand_value_bounds fs h32 h64 RAND_MAX (rand i) (hrand i)
  refine ⟨hlo, hhi, ?_, ?_⟩
  · intro h0; rw [h0]; exact rand_value_zero fs h32 h64 RAND_MAX
  · intro hm; rw [hm]; exact rand_value_max fs h32 h64 RAND_MAX hpos

/-- Witness of C5 (amended): exact arithmetic, `RAND_MAX = 2147483647`, two elements, `rand()`
returning `0` and then `RAND_MAX`. -/
theorem rand_vec_range_witness :
    RoundingOK FloatSem.exact.f32 ∧ RoundingOK FloatSem.exact.f64 ∧ 0 < 2147483647 ∧
      (∀ k, (fun j : Nat => if j = 0 then 0 else 2147483647) k ≤ 2147483647) ∧
      (∀ i, i < 2 →
        -(1 / 2) ≤ rand_vec FloatSem.exact 2147483647
            (fun j => if j = 0 then 0 else 2147483647) (fun _ => 0) 2 i ∧
        rand_vec FloatSem.exact 2147483647
            (fun j => if j = 0 then 0 else 2147483647) (fun _ => 0) 2 i ≤ 1 / 2 ∧
        ((fun j : Nat => if j = 0 then 0 else 2147483647) i = 0 →
          rand_vec FloatSem.exact 2147483647
            (fun j => if j = 0 then 0 else 2147483647) (fun _ => 0) 2 i = -(1 / 2)) ∧
        ((fun j : Nat => if j = 0 then 0 else 2147483647) i = 2147483647 →
          rand_vec FloatSem.exact 2147483647
            (fun j => if j = 0 then 0 else 2147483647) (fun _ => 0) 2 i = 1 / 2)) :=
  have hk : ∀ k, (fun j : Nat => if j = 0 then 0 else 2147483647) k ≤ 2147483647 := by
    intro k; dsimp only; split <;> omega
  ⟨exact_rounding_ok.1, exact_rounding_ok.2, by decide, hk,
    rand_vec_range FloatSem.exact 2147483647 _ (fun _ => 0) 2
      exact_rounding_ok.1 exact_rounding_ok.2 (by decide) hk⟩

/-- Counterexample to C5: with `RAND_MAX = 2147483647` and `rand()` returning `RAND_MAX`, the
element written by `rand_vec` is exactly `0.5`, which is not below `0.5`. -/
theorem rand_vec_range_counterexample :
    (2147483647 : Nat) ≤ 2147483647 ∧
      rand_vec FloatSem.exact 2147483647 (fun _ => 2147483647) (fun _ => 0) 1 0 = 1 / 2 ∧
      ¬ (rand_vec FloatSem.exact 2147483647 (fun _ => 2147483647) (fun _ => 0) 1 0 < 1 / 2) := by
  have h : rand_vec FloatSem.exact 2147483647 (fun _ => 2147483647) (fun _ => 0) 1 0 = 1 / 2 := by
    rw [rand_vec_eq _ _ _ _ 1 0 (by decide)]
    exact rand_value_max FloatSem.exact exact_rounding_ok.1 exact_rounding_ok.2 2147483647
      (by decide)
  exact ⟨le_refl _, h, by rw [h]; exact lt_irrefl _⟩

/-! ## CHECK_ERROR and the API calls -/

theorem api_bind {β : Type} (env : Env) (f : Api) (line k : Nat) (args : List Nat)
    (g : Int → Res β) :
    (api env f line k args >>= g) = Res.after [Event.call f line args] (g (env.status line k)) :=
  rfl

theorem CHECK_ERROR_var (file : String) (line : Nat) (e : Int) :
    CHECK_ERROR file line (fun _ => Res.ret e []) =
      if e = CL_SUCCESS then Res.ret () []
      else Res.exit EXIT_FAILURE [Event.print (error_line file line e)] := by
  by_cases h : e = CL_SUCCESS <;> simp [CHECK_ERROR, h, printf, exit]

theorem CHECK_ERROR_call (env : Env) (f : Api) (line l : Nat) (args : List Nat) :
    CHECK_ERROR env.file l (fun k => api env f line k args) =
      if env.status line 0 = CL_SUCCESS then Res.ret () [Event.call f line args]
      else Res.exit EXIT_FAILURE [Event.call f line args, Event.call f line args,
        Event.print (error_line env.file l (env.status line 1))] := by
  by_cases h : env.status line 0 = CL_SUCCESS <;> simp [CHECK_ERROR, h, printf, exit, api]

theorem check_vec_add_fail (fs : FloatSem) (fmt : ℚ → String) (A B C : Nat → ℚ) (N : Nat) :
    check_vec_add fs fmt false A B C N =
      Res.exit 0 [Event.print "Validating...\n",
        Event.print "Failed to allocate memory for vector.\n"] := by
  simp [check_vec_add, alloc_vec, printf, exit]

/-- The run of main when the kernel file opens, the allocations succeed and every
status-checked call succeeds; nothing is assumed of the release calls. -/
theorem main_run (env : Env) (bin : List Nat) (hfile : env.fopen "kernel.cl.sfb" = some bin)
    (hmalloc : ∀ n, n < 4 → env.malloc n = true)
    (hstart : ∀ l, l ∈ startup_lines → env.status l 0 = CL_SUCCESS)
    (hbuf : ∀ l, l ∈ buffer_lines → env.status l 0 = CL_SUCCESS) :
    main env = Res.ret 0 (discovery_events env ++ program_events bin.length ++ buffer_calls ++
      (check_vec_add env.fs env.fmt true (main_A env) (main_B env) env.readback MAIN_N).trace ++
      release_calls) := by
  have h0 := hmalloc 0 (by omega)
  have h1 := hmalloc 1 (by omega)
  have h2 := hmalloc 2 (by omega)
  have h3 := hmalloc 3 (by omega)
  have hrun := check_vec_add_run env.fs env.fmt (main_A env) (main_B env) env.readback MAIN_N
  rw [hrun]
  unfold main_A main_B at hrun
  simp only [startup_lines, buffer_lines, List.forall_mem_cons, List.not_mem_nil,
    false_implies, implies_true, and_true] at hstart hbuf
  simp [main, api_bind, CHECK_ERROR_var, CHECK_ERROR_call, hstart, hbuf, print_platform_info,
    print_device_info, create_and_build_program_with_binary, load_binary, hfile, alloc_vec,
    h0, h1, h2, h3, hrun, printf, CL_SUCCESS, CL_BUILD_PROGRAM_FAILURE,
    discovery_events, program_events, buffer_calls, release_calls, Res.trace]
  exact ⟨by decide, rfl, rfl, ⟨by decide, rfl⟩, by decide, rfl⟩

/-! ## Runs of main -/

/-- C8: in every run of `main` in which the calls of platform and device discovery and of
context and queue creation succeed but "kernel.cl.sfb" cannot be opened, `load_binary` returns
the null result, the process prints "Failed to open kernel.cl.sfb" after the discovery events
and terminates with `EXIT_FAILURE`; the only API calls of the run are those of discovery and of
context and queue creation, so no buffer, program, kernel, write, enqueue or read call
occurs. -/
theorem missing_kernel_file (env : Env)
    (hpre : ∀ l, l ∈ discovery_lines → env.status l 0 = CL_SUCCESS)
    (hfile : env.fopen "kernel.cl.sfb" = none) :
    load_binary env "kernel.cl.sfb" = none ∧
      main env = Res.exit EXIT_FAILURE
        (discovery_events env ++ [Event.print "Failed to open kernel.cl.sfb\n"]) ∧
      ∀ f l a, Event.call f l a ∈ (main env).trace →
        f ∈ [Api.clGetPlatformIDs, Api.clGetPlatformInfo, Api.clGetDeviceIDs,
          Api.clGetDeviceInfo, Api.clCreateContext, Api.clCreateCommandQueue] := by
  have hload : load_binary env "kernel.cl.sfb" = none := by simp [load_binary, hfile]
  have hmain : main env = Res.exit EXIT_FAILURE
      (discovery_events env ++ [Event.print "Failed to open kernel.cl.sfb\n"]) := by
    simp only [discovery_lines, List.forall_mem_cons, List.not_mem_nil,
      false_implies, implies_true, and_true] at hpre
    simp [main, api_bind, CHECK_ERROR_var, CHECK_ERROR_call, hpre, print_platform_info,
      print_device_info, create_and_build_program_with_binary, hload, printf, exit,
      CL_SUCCESS, discovery_events]
  refine ⟨hload, hmain, ?_⟩
  intro f l a h
  rw [hmain] at h
  simp [Res.trace, discovery_events] at h
  simp
  tauto

/-- Witness of C8: `Env.sample` with a file system in which no file opens. -/
theorem missing_kernel_file_witness :
    (∀ l, l ∈ discovery_lines →
        ({ Env.sample with fopen := fun _ => none } : Env).status l 0 = CL_SUCCESS) ∧
      ({ Env.sample with fopen := fun _ => none } : Env).fopen "kernel.cl.sfb" = none ∧
      load_binary { Env.sample with fopen := fun _ => none } "kernel.cl.sfb" = none ∧
      main { Env.sample with fopen := fun _ => none } = Res.exit EXIT_FAILURE
        (discovery_events { Env.sample with fopen := fun _ => none } ++
          [Event.print "Failed to open kernel.cl.sfb\n"]) :=
  have h := missing_kernel_file { Env.sample with fopen := fun _ => none }
    (fun _ _ => rfl) rfl
  ⟨fun _ _ => rfl, rfl, h.1, h.2.1⟩

/-- C7 (amended): in a run of `main` that reaches the buffer steps, for each of the eleven
status-checked calls (three buffer creations, two writes, four argument bindings, the kernel
enqueue, the read-back): if the calls before it succeed and it returns a status other than
`CL_SUCCESS`, the process prints "[file:line] OpenCL error status" right after that call and
terminates with `EXIT_FAILURE`, no later API call being issued.  The seven release calls are
not status-checked: when the eleven calls succeed, whatever the release calls return, all seven
are issued after the validation and `main` returns 0. -/
theorem buffer_steps_checked (env : Env) (bin : List Nat)
    (hfile : env.fopen "kernel.cl.sfb" = some bin)
    (hmalloc : ∀ n, n < 4 → env.malloc n = true)
    (hstart : ∀ l, l ∈ startup_lines → env.status l 0 = CL_SUCCESS) :
    (∀ k, k < 11 →
      (∀ l, l ∈ buffer_lines.take k → env.status l 0 = CL_SUCCESS) →
      env.status (buffer_lines.getD k 0) 0 ≠ CL_SUCCESS →
      main env = Res.exit EXIT_FAILURE
        (discovery_events env ++ program_events bin.length ++ buffer_calls.take (k + 1) ++
          [Event.print (error_line env.file (buffer_lines.getD k 0 + 1)
            (env.status (buffer_lines.getD k 0) 0))])) ∧
    ((∀ l, l ∈ buffer_lines → env.status l 0 = CL_SUCCESS) →
      main env = Res.ret 0
        (discovery_events env ++ program_events bin.length ++ buffer_calls ++
          (check_vec_add env.fs env.fmt true (main_A env) (main_B env) env.readback
            MAIN_N).trace ++
          release_calls)) := by
  refine ⟨?_, fun hbuf => main_run env bin hfile hmalloc hstart hbuf⟩
  intro k hk hok hfail
  have h0 := hmalloc 0 (by omega)
  have h1 := hmalloc 1 (by omega)
  have h2 := hmalloc 2 (by omega)
  simp only [startup_lines, List.forall_mem_cons, List.not_mem_nil,
    false_implies, implies_true, and_true, CL_SUCCESS] at hstart
  have e1 : size_mul MAIN_N SIZEOF_FLOAT = 4096 := by decide
  have e2 : dispatch_gws MAIN_N 256 = 1024 := by decide
  interval_cases k <;>
    simp only [buffer_lines, List.take, List.forall_mem_cons, List.not_mem_nil,
      false_implies, implies_true, and_true, List.getD_cons_zero, List.getD_cons_succ,
      CL_SUCCESS] at hok hfail <;>
    simp [main, api_bind, CHECK_ERROR_var, CHECK_ERROR_call, hstart, hok, hfail,
      print_platform_info, print_device_info, create_and_build_program_with_binary,
      load_binary, hfile, alloc_vec, h0, h1, h2, printf, exit, CL_BUILD_PROGRAM_FAILURE,
      discovery_events, program_events, buffer_calls, buffer_lines, e1, e2,
      SIZEOF_CL_MEM, SIZEOF_INT, LWS, CL_SUCCESS]

/-- Witness of C7 (amended): the third buffer creation (line 168) returns `-5`. -/
theorem buffer_steps_checked_witness :
    ({ Env.sample with status := fun l _ => if l = 168 then -5 else CL_SUCCESS } : Env).fopen
        "kernel.cl.sfb" = some [0, 1, 2, 3] ∧
      (∀ n, n < 4 →
        ({ Env.sample with status := fun l _ => if l = 168 then -5 else CL_SUCCESS } : Env).malloc
          n = true) ∧
      (∀ l, l ∈ startup_lines →
        ({ Env.sample with status := fun l _ => if l = 168 then -5 else CL_SUCCESS } : Env).status
          l 0 = CL_SUCCESS) ∧
      (2 < 11) ∧
      (∀ l, l ∈ buffer_lines.take 2 →
        ({ Env.sample with status := fun l _ => if l = 168 then -5 else CL_SUCCESS } : Env).status
          l 0 = CL_SUCCESS) ∧
      ({ Env.sample with status := fun l _ => if l = 168 then -5 else CL_SUCCESS } : Env).status
        (buffer_lines.getD 2 0) 0 ≠ CL_SUCCESS ∧
      main { Env.sample with status := fun l _ => if l = 168 then -5 else CL_SUCCESS } =
        Res.exit EXIT_FAILURE
          (discovery_events Env.sample ++ program_events 4 ++
            [Event.call Api.clCreateBuffer 164 [4096], Event.call Api.clCreateBuffer 166 [4096],
              Event.call Api.clCreateBuffer 168 [4096]] ++
            [Event.print (error_line "vec_add.c" 169 (-5))]) :=
  have hstart : ∀ l, l ∈ startup_lines →
      ({ Env.sample with status := fun l _ => if l = 168 then -5 else CL_SUCCESS } : Env).status
        l 0 = CL_SUCCESS := by
    intro l hl
    have : l ≠ 168 := by rintro rfl; simp [startup_lines] at hl
    simp [this]
  have hok : ∀ l, l ∈ buffer_lines.take 2 →
      ({ Env.sample with status := fun l _ => if l = 168 then -5 else CL_SUCCESS } : Env).status
        l 0 = CL_SUCCESS := by
    intro l hl
    have : l ≠ 168 := by rintro rfl; simp [buffer_lines] at hl
    simp [this]
  ⟨rfl, fun _ _ => rfl, hstart, by decide, hok, by decide,
    (buffer_steps_checked _ [0, 1, 2, 3] rfl (fun _ _ => rfl) hstart).1 2 (by decide) hok
      (by decide)⟩

/-- Counterexample to C7: the first release call (line 204) returns `-38`, a status other
than `CL_SUCCESS`; nothing is printed for it, the six later release calls are issued, and `main`
returns 0 instead of terminating with `EXIT_FAILURE`. -/
theorem release_calls_unchecked_counterexample :
    Env.sample_release_fails.status 204 0 ≠ CL_SUCCESS ∧
      main Env.sample_release_fails = Res.ret 0
        (discovery_events Env.sample_release_fails ++ program_events 4 ++ buffer_calls ++
          (check_vec_add FloatSem.exact printf_f true (main_A Env.sample_release_fails)
            (main_B Env.sample_release_fails) (fun _ => -1) MAIN_N).trace ++
          [Event.call Api.clReleaseMemObject 204 [],
            Event.call Api.clReleaseMemObject 205 [],
            Event.call Api.clReleaseMemObject 206 [],
            Event.call Api.clReleaseKernel 207 [],
            Event.call Api.clReleaseProgram 208 [],
            Event.call Api.clReleaseCommandQueue 209 [],
            Event.call Api.clReleaseContext 210 []]) := by
  refine ⟨by decide, ?_⟩
  have hs : ∀ l, l ≠ 204 → Env.sample_release_fails.status l 0 = CL_SUCCESS := by
    intro l hl
    simp [Env.sample_release_fails, hl]
  exact main_run Env.sample_release_fails [0, 1, 2, 3] rfl (fun _ _ => rfl)
    (fun l hl => hs l (by rintro rfl; simp [startup_lines] at hl))
    (fun l hl => hs l (by rintro rfl; simp [buffer_lines] at hl))

/-! ## Build failure -/

theorem build_log_query_fails (env : Env) (file_name : String) (bin : List Nat)
    (hfile : env.fopen file_name = some bin) (hcreate : env.status 100 0 = CL_SUCCESS)
    (hb : env.status 103 0 = CL_BUILD_PROGRAM_FAILURE) (h106 : env.status 106 0 ≠ CL_SUCCESS) :
    create_and_build_program_with_binary env file_name = Res.exit EXIT_FAILURE
      [Event.call Api.clCreateProgramWithBinary 100 [bin.length],
        Event.call Api.clBuildProgram 103 [],
        Event.call Api.clGetProgramBuildInfo 106 [],
        Event.call Api.clGetProgramBuildInfo 106 [],
        Event.print (error_line env.file 106 (env.status 106 1))] := by
  have hload : load_binary env file_name = some bin := by simp [load_binary, hfile]
  simp [create_and_build_program_with_binary, hload, api_bind, CHECK_ERROR_var,
    CHECK_ERROR_call, hcreate, hb, h106, printf]

/-- C9 (amended): in `create_and_build_program_with_binary`, once the file is loaded and the
program created: when the build step returns `CL_BUILD_PROGRAM_FAILURE` and both build-log
queries succeed, the log is fetched and printed ("Compile error:" followed by the log text)
before the error line of line 113 and the termination with `EXIT_FAILURE`; when the build step
returns `CL_BUILD_PROGRAM_FAILURE` and a build-log query fails, the process terminates with
`EXIT_FAILURE` printing only the error line of that query; for every other non-success status
of the build step the process terminates with `EXIT_FAILURE` printing only the error line of
line 113, without querying or printing the build log. -/
theorem build_failure_diagnostics (env : Env) (file_name : String) (bin : List Nat)
    (hfile : env.fopen file_name = some bin) (hcreate : env.status 100 0 = CL_SUCCESS) :
    (env.status 103 0 = CL_BUILD_PROGRAM_FAILURE → env.status 106 0 = CL_SUCCESS →
      env.status 108 0 = CL_SUCCESS →
      create_and_build_program_with_binary env file_name = Res.exit EXIT_FAILURE
        [Event.call Api.clCreateProgramWithBinary 100 [bin.length],
          Event.call Api.clBuildProgram 103 [],
          Event.call Api.clGetProgramBuildInfo 106 [],
          Event.call Api.clGetProgramBuildInfo 108 [],
          Event.print ("Compile error:\n" ++ env.build_log ++ "\n"),
          Event.print (error_line env.file 113 CL_BUILD_PROGRAM_FAILURE)]) ∧
    (env.status 103 0 = CL_BUILD_PROGRAM_FAILURE → env.status 106 0 ≠ CL_SUCCESS →
      create_and_build_program_with_binary env file_name = Res.exit EXIT_FAILURE
        [Event.call Api.clCreateProgramWithBinary 100 [bin.length],
          Event.call Api.clBuildProgram 103 [],
          Event.call Api.clGetProgramBuildInfo 106 [],
          Event.call Api.clGetProgramBuildInfo 106 [],
          Event.print (error_line env.file 106 (env.status 106 1))]) ∧
    (env.status 103 0 = CL_BUILD_PROGRAM_FAILURE → env.status 106 0 = CL_SUCCESS →
      env.status 108 0 ≠ CL_SUCCESS →
      create_and_build_program_with_binary env file_name = Res.exit EXIT_FAILURE
        [Event.call Api.clCreateProgramWithBinary 100 [bin.length],
          Event.call Api.clBuildProgram 103 [],
          Event.call Api.clGetProgramBuildInfo 106 [],
          Event.call Api.clGetProgramBuildInfo 108 [],
          Event.call Api.clGetProgramBuildInfo 108 [],
          Event.print (error_line env.file 108 (env.status 108 1))]) ∧
    (env.status 103 0 ≠ CL_SUCCESS → env.status 103 0 ≠ CL_BUILD_PROGRAM_FAILURE →
      create_and_build_program_with_binary env file_name = Res.exit EXIT_FAILURE
        [Event.call Api.clCreateProgramWithBinary 100 [bin.length],
          Event.call Api.clBuildProgram 103 [],
          Event.print (error_line env.file 113 (env.status 103 0))]) := by
  have hload : load_binary env file_name = some bin := by simp [load_binary, hfile]
  have hne : CL_BUILD_PROGRAM_FAILURE ≠ CL_SUCCESS := by decide
  refine ⟨?_, ?_, ?_, ?_⟩
  · intro hb h106 h108
    simp [create_and_build_program_with_binary, hload, api_bind, CHECK_ERROR_var,
      CHECK_ERROR_call, hcreate, hb, h106, h108, hne, printf]
  · intro hb h106
    exact build_log_query_fails env file_name bin hfile hcreate hb h106
  · intro hb h106 h108
    simp [create_and_build_program_with_binary, hload, api_bind, CHECK_ERROR_var,
      CHECK_ERROR_call, hcreate, hb, h106, h108, hne, printf]
  · intro hs hb
    simp [create_and_build_program_with_binary, hload, api_bind, CHECK_ERROR_var,
      CHECK_ERROR_call, hcreate, hb, hs, printf]

/-- Witness of C9 (amended): the build step returns `CL_BUILD_PROGRAM_FAILURE` and both
build-log queries succeed. -/
theorem build_failure_diagnostics_witness :
    Env.sample_build_fails.fopen "kernel.cl.sfb" = some [0, 1, 2, 3] ∧
      Env.sample_build_fails.status 100 0 = CL_SUCCESS ∧
      Env.sample_build_fails.status 103 0 = CL_BUILD_PROGRAM_FAILURE ∧
      Env.sample_build_fails.status 106 0 = CL_SUCCESS ∧
      Env.sample_build_fails.status 108 0 = CL_SUCCESS ∧
      create_and_build_program_with_binary Env.sample_build_fails "kernel.cl.sfb" =
        Res.exit EXIT_FAILURE
          [Event.call Api.clCreateProgramWithBinary 100 [4],
            Event.call Api.clBuildProgram 103 [],
            Event.call Api.clGetProgramBuildInfo 106 [],
            Event.call Api.clGetProgramBuildInfo 108 [],
            Event.print ("Compile error:\n" ++ "error: kernel" ++ "\n"),
            Event.print (error_line "vec_add.c" 113 CL_BUILD_PROGRAM_FAILURE)] :=
  ⟨rfl, rfl, rfl, rfl, rfl,
    (build_failure_diagnostics Env.sample_build_fails "kernel.cl.sfb" [0, 1, 2, 3] rfl rfl).1
      rfl rfl rfl⟩

/-- Counterexample to C9: the build step returns `CL_BUILD_PROGRAM_FAILURE` and the first
build-log query (line 106) returns `-30`; the process terminates with `EXIT_FAILURE` after the
error line of line 106, and the build log is never printed. -/
theorem build_failure_diagnostics_counterexample :
    Env.sample_log_query_fails.status 103 0 = CL_BUILD_PROGRAM_FAILURE ∧
      create_and_build_program_with_binary Env.sample_log_query_fails "kernel.cl.sfb" =
        Res.exit EXIT_FAILURE
          [Event.call Api.clCreateProgramWithBinary 100 [4],
            Event.call Api.clBuildProgram 103 [],
            Event.call Api.clGetProgramBuildInfo 106 [],
            Event.call Api.clGetProgramBuildInfo 106 [],
            Event.print (error_line "vec_add.c" 106 (-30))] ∧
      Event.print ("Compile error:\n" ++ Env.sample_log_query_fails.build_log ++ "\n") ∉
        (create_and_build_program_with_binary Env.sample_log_query_fails
          "kernel.cl.sfb").trace := by
  have h103 : Env.sample_log_query_fails.status 103 0 = CL_BUILD_PROGRAM_FAILURE := rfl
  have hrun : create_and_build_program_with_binary Env.sample_log_query_fails "kernel.cl.sfb" =
      Res.exit EXIT_FAILURE
        [Event.call Api.clCreateProgramWithBinary 100 [4],
          Event.call Api.clBuildProgram 103 [],
          Event.call Api.clGetProgramBuildInfo 106 [],
          Event.call Api.clGetProgramBuildInfo 106 [],
          Event.print (error_line "vec_add.c" 106 (-30))] :=
    build_log_query_fails Env.sample_log_query_fails "kernel.cl.sfb" [0, 1, 2, 3] rfl rfl h103
      (by decide)
  refine ⟨h103, hrun, ?_⟩
  rw [hrun]
  simp only [Res.trace]
  decide

/-! ## Allocation failure -/

/-- C10: when the allocation inside `alloc_vec` fails, the process prints "Failed to allocate
memory for vector." and terminates with exit status 0, the status `main` returns on normal
completion.  This holds for `alloc_vec` itself, for each of the three allocations of `main`
(reached when the startup calls and the earlier allocations succeed) and for the allocation of
the reference vector inside `check_vec_add`, where the run ends after "Validating..." and the
allocation message, so no verdict line is printed. -/
theorem alloc_failure_exit_status (env : Env) (bin : List Nat)
    (hfile : env.fopen "kernel.cl.sfb" = some bin)
    (hstart : ∀ l, l ∈ startup_lines → env.status l 0 = CL_SUCCESS) :
    (∀ N, alloc_vec false N =
      Res.exit 0 [Event.print "Failed to allocate memory for vector.\n"]) ∧
    (∀ k, k < 3 → (∀ n, n < k → env.malloc n = true) → env.malloc k = false →
      main env = Res.exit 0
        (discovery_events env ++ program_events bin.length ++
          [Event.print "Failed to allocate memory for vector.\n"])) ∧
    (∀ (fs : FloatSem) (fmt : ℚ → String) (A B C : Nat → ℚ) (N : Nat),
      check_vec_add fs fmt false A B C N =
        Res.exit 0 [Event.print "Validating...\n",
          Event.print "Failed to allocate memory for vector.\n"]) ∧
    ((∀ n, n < 3 → env.malloc n = true) → env.malloc 3 = false →
      (∀ l, l ∈ buffer_lines → env.status l 0 = CL_SUCCESS) →
      main env = Res.exit 0
        (discovery_events env ++ program_events bin.length ++ buffer_calls ++
          [Event.print "Validating...\n",
            Event.print "Failed to allocate memory for vector.\n"])) ∧
    ((∀ n, n < 4 → env.malloc n = true) →
      (∀ l, l ∈ buffer_lines → env.status l 0 = CL_SUCCESS) →
      ∃ tr, main env = Res.ret 0 tr) := by
  have hstart2 := hstart
  simp only [startup_lines, List.forall_mem_cons, List.not_mem_nil,
    false_implies, implies_true, and_true, CL_SUCCESS] at hstart2
  refine ⟨?_, ?_, ?_, ?_, ?_⟩
  · intro N
    simp [alloc_vec, printf, exit]
  · intro k hk hok hfail
    interval_cases k
    · simp [main, api_bind, CHECK_ERROR_var, CHECK_ERROR_call, hstart2,
        print_platform_info, print_device_info, create_and_build_program_with_binary,
        load_binary, hfile, alloc_vec, hfail, printf, exit, CL_BUILD_PROGRAM_FAILURE,
        discovery_events, program_events, CL_SUCCESS]
    · have h0 := hok 0 (by omega)
      simp [main, api_bind, CHECK_ERROR_var, CHECK_ERROR_call, hstart2,
        print_platform_info, print_device_info, create_and_build_program_with_binary,
        load_binary, hfile, alloc_vec, h0, hfail, printf, exit, CL_BUILD_PROGRAM_FAILURE,
        discovery_events, program_events, CL_SUCCESS]
    · have h0 := hok 0 (by omega)
      have h1 := hok 1 (by omega)
      simp [main, api_bind, CHECK_ERROR_var, CHECK_ERROR_call, hstart2,
        print_platform_info, print_device_info, create_and_build_program_with_binary,
        load_binary, hfile, alloc_vec, h0, h1, hfail, printf, exit, CL_BUILD_PROGRAM_FAILURE,
        discovery_events, program_events, CL_SUCCESS]
  · intro fs fmt A B C N
    exact check_vec_add_fail fs fmt A B C N
  · intro hok hfail hbuf
    have h0 := hok 0 (by omega)
    have h1 := hok 1 (by omega)
    have h2 := hok 2 (by omega)
    have e1 : size_mul MAIN_N SIZEOF_FLOAT = 4096 := by decide
    have e2 : dispatch_gws MAIN_N 256 = 1024 := by decide
    simp only [buffer_lines, List.forall_mem_cons, List.not_mem_nil,
      false_implies, implies_true, and_true, CL_SUCCESS] at hbuf
    simp [main, api_bind, CHECK_ERROR_var, CHECK_ERROR_call, hstart2, hbuf,
      print_platform_info, print_device_info, create_and_build_program_with_binary,
      load_binary, hfile, alloc_vec, h0, h1, h2, hfail, printf, exit, CL_BUILD_PROGRAM_FAILURE,
      discovery_events, program_events, buffer_calls, e1, e2, check_vec_add_fail,
      SIZEOF_CL_MEM, SIZEOF_INT, LWS, CL_SUCCESS]
  · intro hok hbuf
    exact ⟨_, main_run env bin hfile hok hstart hbuf⟩

/-- Witness of C10: the second allocation of `main` (vector `B`) fails. -/
theorem alloc_failure_exit_status_witness :
    ({ Env.sample with malloc := fun n => decide (n ≠ 1) } : Env).fopen "kernel.cl.sfb" =
        some [0, 1, 2, 3] ∧
      (∀ l, l ∈ startup_lines →
        ({ Env.sample with malloc := fun n => decide (n ≠ 1) } : Env).status l 0 = CL_SUCCESS) ∧
      1 < 3 ∧
      (∀ n, n < 1 → ({ Env.sample with malloc := fun n => decide (n ≠ 1) } : Env).malloc n = true) ∧
      ({ Env.sample with malloc := fun n => decide (n ≠ 1) } : Env).malloc 1 = false ∧
      main { Env.sample with malloc := fun n => decide (n ≠ 1) } = Res.exit 0
        (discovery_events Env.sample ++ program_events 4 ++
          [Event.print "Failed to allocate memory for vector.\n"]) :=
  have hok : ∀ n, n < 1 →
      ({ Env.sample with malloc := fun n => decide (n ≠ 1) } : Env).malloc n = true := by
    intro n hn
    have : n = 0 := by omega
    subst this
    rfl
  ⟨rfl, fun _ _ => rfl, by decide, hok, rfl,
    (alloc_failure_exit_status { Env.sample with malloc := fun n => decide (n ≠ 1) }
      [0, 1, 2, 3] rfl (fun _ _ => rfl)).2.1 1 (by decide) hok rfl⟩

/-! ## The validator over any floating-point arithmetic: the verdict -/

theorem ieee_check_vec_add_rounded (fs : FloatSem) (fmt : ℚ → String) (malloc_ok : Bool)
    (A B C : Nat → ℚ) (N : Nat) :
    Ieee.check_vec_add (FloatOps.rounded fs fmt) malloc_ok (fun _ => (0 : ℚ)) A B C N =
      check_vec_add fs fmt malloc_ok A B C N := rfl

theorem ieee_compute_C_ans_succ (ops : FloatOps) (mem A B : Nat → ops.F) (n : Nat) :
    Ieee.compute_C_ans ops mem A B (n + 1)
      = Function.update (Ieee.compute_C_ans ops mem A B n) n (ops.add (A n) (B n)) := by
  simp [Ieee.compute_C_ans, List.range_succ, List.foldl_append]

theorem ieee_compute_C_ans_eq (ops : FloatOps) (mem A B : Nat → ops.F) (n i : Nat)
    (h : i < n) : Ieee.compute_C_ans ops mem A B n i = ops.add (A i) (B i) := by
  induction n with
  | zero => omega
  | succ n ih =>
    rw [ieee_compute_C_ans_succ]
    by_cases hi : i = n
    · subst hi; simp
    · rw [Function.update_noteq hi]
      exact ih (by omega)

theorem ieee_mismatch_indices_succ (ops : FloatOps) (C C_ans : Nat → ops.F) (n : Nat) :
    Ieee.mismatch_indices ops C C_ans (n + 1)
      = Ieee.mismatch_indices ops C C_ans n ++
          (if Ieee.mismatch ops (C n) (C_ans n) then [n] else []) := by
  simp [Ieee.mismatch_indices, List.range_succ, List.filter_append, List.filter_cons]

theorem ieee_check_loop_eq (ops : FloatOps) (C C_ans : Nat → ops.F) (n : Nat) :
    for_loop n (Ieee.check_body ops C C_ans) ⟨0, true⟩
      = Res.ret ⟨(Ieee.mismatch_indices ops C C_ans n).length,
            decide ((Ieee.mismatch_indices ops C C_ans n).length = 0)⟩
          (Ieee.report ops C C_ans (Ieee.mismatch_indices ops C C_ans n)) := by
  induction n with
  | zero => simp [for_loop_zero, Ieee.mismatch_indices, Ieee.report, THR]
  | succ n ih =>
    rw [for_loop_succ, ih, ieee_mismatch_indices_succ]
    by_cases hm : Ieee.mismatch ops (C n) (C_ans n) = true
    · generalize Ieee.mismatch_indices ops C C_ans n = ms
      rcases Nat.lt_trichotomy ms.length THR with hlt | heq | hgt
      · have h1 : ms.length + 1 ≤ THR := hlt
        have h2 : ¬ ms.length = THR := by omega
        have h3 : ¬ THR + 1 ≤ ms.length := by omega
        have h4 : ¬ THR + 1 ≤ ms.length + 1 := by omega
        have h5 : ms.length ≤ THR := by omega
        obtain ⟨k, hk⟩ : ∃ k, THR - ms.length = k + 1 := ⟨THR - ms.length - 1, by omega⟩
        simp [Ieee.check_body, hm, printf, Ieee.report, h1, h2, h3, h4,
          List.take_append_eq_append_take, List.take_of_length_le h5, hk]
      · have h1 : ¬ ms.length + 1 ≤ THR := by omega
        have h3 : ¬ THR + 1 ≤ ms.length := by omega
        have h4 : THR + 1 ≤ ms.length + 1 := by omega
        have h5 : ms.length ≤ THR := by omega
        have hk : THR - ms.length = 0 := by omega
        simp [Ieee.check_body, hm, printf, Ieee.report, h1, heq, h3, h4,
          List.take_append_eq_append_take, List.take_of_length_le h5, hk]
      · have h1 : ¬ ms.length + 1 ≤ THR := by omega
        have h2 : ¬ ms.length = THR := by omega
        have h3 : THR + 1 ≤ ms.length := by omega
        have h4 : THR + 1 ≤ ms.length + 1 := by omega
        have hk : THR - ms.length = 0 := by omega
        simp [Ieee.check_body, hm, printf, Ieee.report, h1, h2, h3, h4,
          List.take_append_eq_append_take, hk]
    · simp at hm
      simp [Ieee.check_body, hm]

/-- The whole run of `Ieee.check_vec_add` when the allocation of `C_ans` succeeds. -/
theorem ieee_check_vec_add_run (ops : FloatOps) (mem A B C : Nat → ops.F) (N : Nat) :
    Ieee.check_vec_add ops true mem A B C N
      = Res.ret () (Event.print "Validating...\n" ::
          (Ieee.report ops C (Ieee.compute_C_ans ops mem A B N)
              (Ieee.mismatch_indices ops C (Ieee.compute_C_ans ops mem A B N) N) ++
            [Event.print (if (Ieee.mismatch_indices ops C
                (Ieee.compute_C_ans ops mem A B N) N).length = 0
              then "Result: VALID\n" else "Result: INVALID\n")])) := by
  simp only [Ieee.check_vec_add, alloc_vec, printf, ieee_check_loop_eq]
  by_cases hz : (Ieee.mismatch_indices ops C (Ieee.compute_C_ans ops mem A B N) N).length = 0
  · simp [hz]
  · simp [hz]

theorem ieee_check_vec_add_fail (ops : FloatOps) (mem A B C : Nat → ops.F) (N : Nat) :
    Ieee.check_vec_add ops false mem A B C N =
      Res.exit 0 [Event.print "Validating...\n",
        Event.print "Failed to allocate memory for vector.\n"] := by
  simp [Ieee.check_vec_add, alloc_vec, printf, exit]

theorem ieee_mismatch_line_ne_invalid (ops : FloatOps) (i : Nat) (a b : ops.F) :
    Ieee.mismatch_line ops i a b ≠ "Result: INVALID\n" := by
  intro h
  have := congrArg String.data h
  simp [Ieee.mismatch_line, String.data_append] at this

theorem ieee_mismatch_line_ne_valid (ops : FloatOps) (i : Nat) (a b : ops.F) :
    Ieee.mismatch_line ops i a b ≠ "Result: VALID\n" := by
  intro h
  have := congrArg String.data h
  simp [Ieee.mismatch_line, String.data_append] at this

theorem ieee_report_no_verdict (ops : FloatOps) (C E : Nat → ops.F) (ms : List Nat)
    (e : Event) (he : e ∈ Ieee.report ops C E ms) :
    e ≠ Event.print "Result: VALID\n" ∧ e ≠ Event.print "Result: INVALID\n" := by
  unfold Ieee.report at he
  rcases List.mem_append.mp he with h | h
  · obtain ⟨i, -, rfl⟩ := List.mem_map.mp h
    constructor
    · intro hc; exact ieee_mismatch_line_ne_valid ops i _ _ (Event.print.inj hc)
    · intro hc; exact ieee_mismatch_line_ne_invalid ops i _ _ (Event.print.inj hc)
  · split at h
    · rw [List.mem_singleton] at h
      subst h
      constructor <;> decide
    · simp at h

theorem ieee_mismatch_indices_length_zero (ops : FloatOps) (mem A B C : Nat → ops.F)
    (N : Nat) :
    (Ieee.mismatch_indices ops C (Ieee.compute_C_ans ops mem A B N) N).length = 0 ↔
      ∀ i, i < N → Ieee.mismatch ops (C i) (ops.add (A i) (B i)) = false := by
  rw [List.length_eq_zero, Ieee.mismatch_indices, List.filter_eq_nil_iff]
  constructor
  · intro h i hi
    have := h i (List.mem_range.mpr hi)
    rw [Bool.not_eq_true, ieee_compute_C_ans_eq ops mem A B N i hi] at this
    exact this
  · intro h i hi
    rw [Bool.not_eq_true, ieee_compute_C_ans_eq ops mem A B N i (List.mem_range.mp hi)]
    exact h i (List.mem_range.mp hi)

theorem ieee_mismatch_false_iff (ops : FloatOps) (c e : ops.F) (h : Ieee.no_nan ops c e) :
    Ieee.mismatch ops c e = false ↔ Ieee.within_tolerance_spec ops c e := by
  obtain ⟨h1, h2⟩ := h
  unfold Ieee.ordered at h1 h2
  unfold Ieee.mismatch Ieee.within_tolerance_spec
  rw [h1]
  cases hz : ops.eq_zero e
  · rw [h2 hz]
    cases ops.gt (ops.fabsf (ops.sub c e)) ops.eps <;>
      cases ops.gt (ops.fabsf (ops.div (ops.sub c e) e)) ops.eps <;> simp
  · cases ops.gt (ops.fabsf (ops.sub c e)) ops.eps <;> simp

/-- C2 (amended): whenever the allocation of the reference vector succeeds, for every `N` and
all vectors `A`, `B`, `C` of `float` values (NaN and the infinities included), whatever the
floating-point arithmetic, `check_vec_add` returns, its output ends with exactly one verdict
line and no other printed line is a verdict line; the verdict is "Result: VALID" if and only if
no index `i < N` satisfies the condition of line 41 (`|C[i] - e| > eps` and (`e == 0` or
`|(C[i] - e) / e| > eps`), with `e = A[i] + B[i]`), and "Result: INVALID" in every other case.
When moreover no compared value is NaN, the verdict is "Result: VALID" if and only if, for every
index `i < N`, either `|C[i] - e| <= eps` or (`e != 0` and `|(C[i] - e) / e| <= eps`), and
"Result: INVALID" in every other case. -/
theorem validator_verdict (ops : FloatOps) (mem A B C : Nat → ops.F) (N : Nat) :
    ∃ body verdict,
      Ieee.check_vec_add ops true mem A B C N = Res.ret () (body ++ [Event.print verdict]) ∧
      (∀ e, e ∈ body →
        e ≠ Event.print "Result: VALID\n" ∧ e ≠ Event.print "Result: INVALID\n") ∧
      (verdict = "Result: VALID\n" ↔
        ∀ i, i < N → Ieee.mismatch ops (C i) (ops.add (A i) (B i)) = false) ∧
      (verdict = "Result: INVALID\n" ↔
        ¬ ∀ i, i < N → Ieee.mismatch ops (C i) (ops.add (A i) (B i)) = false) ∧
      ((∀ i, i < N → Ieee.no_nan ops (C i) (ops.add (A i) (B i))) →
        (verdict = "Result: VALID\n" ↔
          ∀ i, i < N → Ieee.within_tolerance_spec ops (C i) (ops.add (A i) (B i))) ∧
        (verdict = "Result: INVALID\n" ↔
          ¬ ∀ i, i < N → Ieee.within_tolerance_spec ops (C i) (ops.add (A i) (B i)))) := by
  have hspec : (∀ i, i < N → Ieee.no_nan ops (C i) (ops.add (A i) (B i))) →
      ((∀ i, i < N → Ieee.mismatch ops (C i) (ops.add (A i) (B i)) = false) ↔
        ∀ i, i < N → Ieee.within_tolerance_spec ops (C i) (ops.add (A i) (B i))) := by
    intro hn
    constructor
    · intro h i hi
      exact (ieee_mismatch_false_iff ops _ _ (hn i hi)).mp (h i hi)
    · intro h i hi
      exact (ieee_mismatch_false_iff ops _ _ (hn i hi)).mpr (h i hi)
  have hvalid : (if (Ieee.mismatch_indices ops C (Ieee.compute_C_ans ops mem A B N) N).length = 0
        then "Result: VALID\n" else "Result: INVALID\n") = "Result: VALID\n" ↔
      ∀ i, i < N → Ieee.mismatch ops (C i) (ops.add (A i) (B i)) = false := by
    rw [← ieee_mismatch_indices_length_zero ops mem]
    split <;> simp [*]
  have hinvalid : (if (Ieee.mismatch_indices ops C (Ieee.compute_C_ans ops mem A B N) N).length
        = 0 then "Result: VALID\n" else "Result: INVALID\n") = "Result: INVALID\n" ↔
      ¬ ∀ i, i < N → Ieee.mismatch ops (C i) (ops.add (A i) (B i)) = false := by
    rw [← ieee_mismatch_indices_length_zero ops mem]
    split <;> simp [*]
  refine ⟨Event.print "Validating...\n" ::
      Ieee.report ops C (Ieee.compute_C_ans ops mem A B N)
        (Ieee.mismatch_indices ops C (Ieee.compute_C_ans ops mem A B N) N),
    if (Ieee.mismatch_indices ops C (Ieee.compute_C_ans ops mem A B N) N).length = 0
      then "Result: VALID\n" else "Result: INVALID\n", ?_, ?_, hvalid, hinvalid, ?_⟩
  · rw [ieee_check_vec_add_run]; rfl
  · intro e he
    rcases List.mem_cons.mp he with h | h
    · subst h; constructor <;> decide
    · exact ieee_report_no_verdict ops C _ _ e h
  · intro hn
    exact ⟨hvalid.trans (hspec hn), hinvalid.trans (not_congr (hspec hn))⟩

theorem exact_ordered_num (q : ℚ) : Ieee.ordered FloatOps.exact (FVal.num q) := by
  show decide (q ≤ 1 / 1000) = !decide (q > 1 / 1000)
  by_cases h : q ≤ 1 / 1000
  · rw [decide_eq_true h, decide_eq_false (not_lt.mpr h)]; rfl
  · rw [decide_eq_false h, decide_eq_true (not_le.mp h)]; rfl

/-- Witness of C2 (amended): exact arithmetic, `N = 2`, `A[i] = B[i] = 0.25`, `C[0] = 0.5`
(right) and `C[1] = 1` (wrong); no compared value is NaN. -/
theorem validator_verdict_witness :
    (∀ i, i < 2 → Ieee.no_nan FloatOps.exact
        ((fun i => if i = 0 then FVal.num (1 / 2) else FVal.num 1 : Nat → FVal) i)
        (FloatOps.exact.add ((fun _ => FVal.num (1 / 4) : Nat → FVal) i)
          ((fun _ => FVal.num (1 / 4) : Nat → FVal) i))) ∧
      ∃ body verdict,
        Ieee.check_vec_add FloatOps.exact true (fun _ => FVal.nan) (fun _ => FVal.num (1 / 4))
            (fun _ => FVal.num (1 / 4)) (fun i => if i = 0 then FVal.num (1 / 2) else FVal.num 1)
            2 = Res.ret () (body ++ [Event.print verdict]) ∧
        (verdict = "Result: VALID\n" ↔
          ∀ i, i < 2 → Ieee.within_tolerance_spec FloatOps.exact
            ((fun i => if i = 0 then FVal.num (1 / 2) else FVal.num 1 : Nat → FVal) i)
            (FloatOps.exact.add ((fun _ => FVal.num (1 / 4) : Nat → FVal) i)
              ((fun _ => FVal.num (1 / 4) : Nat → FVal) i))) := by
  have hn : ∀ i, i < 2 → Ieee.no_nan FloatOps.exact
      ((fun i => if i = 0 then FVal.num (1 / 2) else FVal.num 1 : Nat → FVal) i)
      (FloatOps.exact.add ((fun _ => FVal.num (1 / 4) : Nat → FVal) i)
        ((fun _ => FVal.num (1 / 4) : Nat → FVal) i)) := by
    intro i _
    have hne : ((1 : ℚ) / 4 + 1 / 4) ≠ 0 := by norm_num
    by_cases hi : i = 0
    · simp only [hi, if_true]
      exact ⟨exact_ordered_num _, fun _ => by
        simp only [FloatOps.exact, FVal.add, FVal.sub, FVal.neg, FVal.div, FVal.fabsf, hne, if_false]
        exact exact_ordered_num _⟩
    · simp only [hi, if_false]
      exact ⟨exact_ordered_num _, fun _ => by
        simp only [FloatOps.exact, FVal.add, FVal.sub, FVal.neg, FVal.div, FVal.fabsf, hne, if_false]
        exact exact_ordered_num _⟩
  obtain ⟨body, verdict, hrun, -, -, -, hspec⟩ := validator_verdict FloatOps.exact
    (fun _ => FVal.nan) (fun _ => FVal.num (1 / 4)) (fun _ => FVal.num (1 / 4))
    (fun i => if i = 0 then FVal.num (1 / 2) else FVal.num 1) 2
  exact ⟨hn, body, verdict, hrun, (hspec hn).1⟩

/-- Counterexample to C2.  First, with `N = 1`, `A[0] = B[0] = 0.25` and `C[0]` NaN, the
allocation succeeding: the difference is NaN, the comparison `>` of line 41 is false, the
element is not counted and the output is "Validating..." then "Result: VALID", although the
condition of the claim is false for element 0 (NaN is not `<= eps`).  Second, with `N = 1` and
`A[0] = B[0] = C[0] = 0`, every element is within tolerance, yet when the allocation of the
reference vector fails the run is "Validating...", the allocation message and `exit(0)`: no
verdict line is printed. -/
theorem validator_verdict_counterexample :
    (Ieee.check_vec_add FloatOps.exact true (fun _ => FVal.nan) (fun _ => FVal.num (1 / 4))
          (fun _ => FVal.num (1 / 4)) (fun _ => FVal.nan) 1 =
        Res.ret () [Event.print "Validating...\n", Event.print "Result: VALID\n"] ∧
      ¬ Ieee.within_tolerance_spec FloatOps.exact FVal.nan
          (FloatOps.exact.add (FVal.num (1 / 4)) (FVal.num (1 / 4)))) ∧
    (Ieee.within_tolerance_spec FloatOps.exact (FVal.num 0)
          (FloatOps.exact.add (FVal.num 0) (FVal.num 0)) ∧
      Ieee.check_vec_add FloatOps.exact false (fun _ => FVal.nan) (fun _ => FVal.num 0)
          (fun _ => FVal.num 0) (fun _ => FVal.num 0) 1 =
        Res.exit 0 [Event.print "Validating...\n",
          Event.print "Failed to allocate memory for vector.\n"]) := by
  refine ⟨⟨?_, ?_⟩, ?_, ieee_check_vec_add_fail _ _ _ _ _ _⟩
  · rw [ieee_check_vec_add_run]
    have hm : Ieee.mismatch_indices FloatOps.exact (fun _ => FVal.nan)
        (Ieee.compute_C_ans FloatOps.exact (fun _ => FVal.nan) (fun _ => FVal.num (1 / 4))
          (fun _ => FVal.num (1 / 4)) 1) 1 = [] := by
      simp [Ieee.mismatch_indices, List.range_succ, Ieee.mismatch, FloatOps.exact, FVal.sub,
        FVal.add, FVal.fabsf, FVal.gt]
    rw [hm]
    simp [Ieee.report, THR]
  · simp [Ieee.within_tolerance_spec, FloatOps.exact, FVal.sub, FVal.add, FVal.div, FVal.fabsf,
      FVal.le]
  · left
    simp [FloatOps.exact, FVal.sub, FVal.add, FVal.neg, FVal.fabsf, FVal.le]


end VecAdd
